import Mathlib

/-!
# Gain control of the Magnesium daughterboard

A shallow embedding of `host/lib/usrp/dboard/magnesium/magnesium_radio_ctrl_gain.cpp`.

* `double` values are exact rationals (`ℚ`); the only place where the source leaves the
  rationals is the conversion `const uint32_t dsa_val = 2*att;`, embedded by `double_to_uint32`.
* The member variables of `magnesium_radio_ctrl_impl` are the fields of `radio_state`.
* The objects the source only calls (`_ad9371`, `_gpio[chan]`, the frequency switches, the gain
  table) are collaborators: every call to one of them is appended to `radio_state.calls`, and
  whether a call throws is decided by `hw_env.fails`.
* A member function is an `action`: it maps the state before the call to the outcome of the call
  (a return value or the exception thrown) together with the state after it. As in C++, the
  assignments made before an exception is thrown stay in place.
* The `UHD_LOG_TRACE` statements do not touch the state and are left out.

The names of the specification map to the source as follows: `set_gain` is `_set_all_gain`,
`get_gain` is `_get_all_gain`, `set_attenuation` is `_dsa_set_att`, `get_attenuation` is
`_dsa_get_att`, the register sink is `_gpio[chan]->set_gpio_out`, the amplifier IC driver is
`_ad9371->set_gain`, and `update_rx`/`update_tx` are `_update_rx_freq_switches` and
`_update_tx_freq_switches`. The two accessors are embedded twice: `_get_all_gain` and
`_dsa_get_att` give the value returned as a function of the state, and `get_gain` and
`get_attenuation` are the same member functions as actions.

The second part of the file embeds `set_fft_size` of `host/lib/usrp/rfnoc/fft_block_ctrl_impl.cpp`.
-/

namespace magnesium

/-! ## Types -/

/-- Modelled from the spec: `uhd::direction_t` is declared in `uhd/types/direction.hpp`, which is
not among the source files. It is the enumeration `{RX, TX, BOTH}`; as a C++ unscoped enumeration
it is carried by an integer, so that the comparisons `dir == RX_DIRECTION` of the source also
have a meaning for a value that is none of the three enumerators. -/
abbrev direction_t := Nat

/-- Receive. -/
abbrev RX_DIRECTION : direction_t := 0
/-- Transmit. -/
abbrev TX_DIRECTION : direction_t := 1
/-- Duplex: the direction `BOTH` of the specification. -/
abbrev DX_DIRECTION : direction_t := 2

/-- Modelled from the spec: the gain tuple `{IC attenuation, DSA attenuation, bypass}` of
`magnesium_gain_table.hpp`, with the field names the source uses. -/
structure gain_tuple_t where
  ad9371_att : ℚ
  dsa_att : ℚ
  bypass : Bool
deriving DecidableEq, Repr

/-- A call to a collaborator, with its arguments in the order of the source. -/
inductive call_t where
  | get_gain_tuple (gain freq : ℚ) (dir : direction_t)
  | ad9371_set_gain (gain : ℚ) (chan : Nat) (dir : direction_t)
  | set_gpio_out (chan : Nat) (value mask : Nat)
  | update_rx_freq_switches (freq : ℚ) (bypass_lnas : Bool) (chan : Nat)
  | update_tx_freq_switches (freq : ℚ) (bypass_amp : Bool) (chan : Nat)
deriving DecidableEq, Repr

/-- The hardware-access error a collaborator throws; it records the call that failed. -/
structure hw_error where
  failed : call_t
deriving DecidableEq, Repr

/-- What the source takes from outside the file: the gain table, the two constants of
`magnesium_constants.hpp`, the failures of the hardware, and the value a conversion from
`double` to `uint32_t` produces where C++ leaves it undefined. -/
structure hw_env where
  /-- The lookup `get_gain_tuple(gain, freq, dir)` of `magnesium_gain_table.hpp`. -/
  get_gain_tuple : ℚ → ℚ → direction_t → gain_tuple_t
  AD9371_MAX_RX_GAIN : ℚ
  AD9371_MAX_TX_GAIN : ℚ
  /-- Whether the given call throws, after the given earlier calls. -/
  fails : List call_t → call_t → Bool
  /-- The result of an out-of-range conversion to `uint32_t`. -/
  out_of_range : ℚ → Nat

/-- The member variables of `magnesium_radio_ctrl_impl` the gain path reads or writes, the
output register behind each `_gpio[chan]`, and the log of the collaborator calls completed. -/
structure radio_state where
  _all_rx_gain : ℚ
  _all_tx_gain : ℚ
  _rx_bypass_lnas : Bool
  _tx_bypass_amp : Bool
  _dsa_rx_att : ℚ
  _dsa_tx_att : ℚ
  /-- The output register of `_gpio[chan]`. -/
  _gpio : Nat → Nat
  /-- The value `radio_ctrl_impl::get_rx_frequency(chan)` returns. -/
  _rx_freq : Nat → ℚ
  /-- The value `radio_ctrl_impl::get_tx_frequency(chan)` returns. -/
  _tx_freq : Nat → ℚ
  calls : List call_t

/-! ## Actions -/

/-- A member function: from the state before to the outcome and the state after. -/
def action (α : Type) : Type := radio_state → Except hw_error α × radio_state

/-- Return without touching the state. -/
def action.ret {α : Type} (a : α) : action α := fun s => (.ok a, s)

/-- Sequencing: an exception of the first part skips the second and keeps the state reached. -/
def action.seq {α β : Type} (m : action α) (f : α → action β) : action β := fun s =>
  match m s with
  | (.ok a, s1) => f a s1
  | (.error e, s1) => (.error e, s1)

instance : Monad action where
  pure := action.ret
  bind := action.seq

/-- An assignment to member variables. -/
def assign (f : radio_state → radio_state) : action Unit := fun s => (.ok (), f s)

/-- Read the member variables. -/
def members : action radio_state := fun s => (.ok s, s)

/-- A call to a collaborator: it throws where `fails` says so, leaving the state as it was,
and otherwise is logged and has its effect. -/
def invoke (env : hw_env) (c : call_t) (effect : radio_state → radio_state) : action Unit :=
  fun s =>
    if env.fails s.calls c then (.error ⟨c⟩, s)
    else (.ok (), effect { s with calls := s.calls ++ [c] })

/-! ## Collaborators -/

/-- Modelled from the spec: the register sink. `_gpio[chan]->set_gpio_out(value, mask)` is a
masked write to the 12-bit attenuator field, `new = (old AND NOT mask) OR (value AND mask)`. -/
def masked_write (old value mask : Nat) : Nat :=
  (old &&& (0xFFF ^^^ mask)) ||| (value &&& mask)

/-- The call `_gpio[chan]->set_gpio_out(value, mask)`. -/
def set_gpio_out (env : hw_env) (chan value mask : Nat) : action Unit :=
  invoke env (.set_gpio_out chan value mask) fun s =>
    { s with _gpio := Function.update s._gpio chan (masked_write (s._gpio chan) value mask) }

/-- The call `_ad9371->set_gain(gain, chan, dir)`. -/
def ad9371_set_gain (env : hw_env) (gain : ℚ) (chan : Nat) (dir : direction_t) : action Unit :=
  invoke env (.ad9371_set_gain gain chan dir) id

/-- The call `_update_rx_freq_switches(freq, bypass_lnas, chan)`. -/
def _update_rx_freq_switches (env : hw_env) (freq : ℚ) (bypass_lnas : Bool) (chan : Nat) :
    action Unit :=
  invoke env (.update_rx_freq_switches freq bypass_lnas chan) id

/-- The call `_update_tx_freq_switches(freq, bypass_amp, chan)`. -/
def _update_tx_freq_switches (env : hw_env) (freq : ℚ) (bypass_amp : Bool) (chan : Nat) :
    action Unit :=
  invoke env (.update_tx_freq_switches freq bypass_amp chan) id

/-- The call `get_gain_tuple(gain, freq, dir)`: a pure lookup, logged, that does not throw. -/
def get_gain_tuple (env : hw_env) (gain freq : ℚ) (dir : direction_t) : action gain_tuple_t :=
  fun s => (.ok (env.get_gain_tuple gain freq dir),
    { s with calls := s.calls ++ [.get_gain_tuple gain freq dir] })

/-- The accessor `radio_ctrl_impl::get_rx_frequency(chan)`. -/
def get_rx_frequency (s : radio_state) (chan : Nat) : ℚ := s._rx_freq chan

/-- The accessor `radio_ctrl_impl::get_tx_frequency(chan)`. -/
def get_tx_frequency (s : radio_state) (chan : Nat) : ℚ := s._tx_freq chan

/-! ## Conversion from `double` to `uint32_t` -/

/-- Discard the fractional part: truncation toward zero. -/
def truncate (x : ℚ) : ℤ := if 0 ≤ x then ⌊x⌋ else ⌈x⌉

/-- The implicit conversion of `const uint32_t dsa_val = 2*att;`. The value is truncated toward
zero; where the truncated value is no `uint32_t` the behaviour is undefined in C++, and the
result is whatever `uint32_t` the environment produces. -/
def double_to_uint32 (out_of_range : ℚ → Nat) (x : ℚ) : Nat :=
  if 0 ≤ truncate x ∧ truncate x < 2 ^ 32 then (truncate x).toNat
  else out_of_range x % 2 ^ 32

/-! ## The functions of `magnesium_radio_ctrl_gain.cpp` -/

/-- Lines 105-122. -/
def _set_dsa_val (env : hw_env) (chan : Nat) (dir : direction_t) (dsa_val : Nat) :
    action Unit := do
  if dir = RX_DIRECTION ∨ dir = DX_DIRECTION then
    set_gpio_out env chan dsa_val 0x003F
  if dir = TX_DIRECTION ∨ dir = DX_DIRECTION then
    set_gpio_out env chan dsa_val 0x0FC0

/-- Line 83, `const uint32_t dsa_val = 2*att;`: the step code of an attenuation. -/
def dsa_val (env : hw_env) (att : ℚ) : Nat := double_to_uint32 env.out_of_range (2 * att)

/-- Lines 75-93. -/
def _dsa_set_att (env : hw_env) (att : ℚ) (chan : Nat) (dir : direction_t) : action ℚ := do
  _set_dsa_val env chan dir (dsa_val env att)
  if dir = RX_DIRECTION ∨ dir = DX_DIRECTION then
    assign fun s => { s with _dsa_rx_att := att }
  if dir = TX_DIRECTION ∨ dir = DX_DIRECTION then
    assign fun s => { s with _dsa_tx_att := att }
  return att

/-- Lines 95-103. -/
def _dsa_get_att (_chan : Nat) (dir : direction_t) (s : radio_state) : ℚ :=
  if dir = RX_DIRECTION then s._dsa_rx_att else s._dsa_tx_att

/-- Lines 17-59. -/
def _set_all_gain (env : hw_env) (gain freq : ℚ) (chan : Nat) (dir : direction_t) :
    action ℚ := do
  let gain_tuple ← get_gain_tuple env gain freq dir
  let ad9371_gain :=
    (if dir = RX_DIRECTION then env.AD9371_MAX_RX_GAIN else env.AD9371_MAX_TX_GAIN)
      - gain_tuple.ad9371_att
  ad9371_set_gain env ad9371_gain chan dir
  let _ ← _dsa_set_att env gain_tuple.dsa_att chan dir
  if dir = RX_DIRECTION ∨ dir = DX_DIRECTION then
    assign fun s => { s with _all_rx_gain := gain }
    assign fun s => { s with _rx_bypass_lnas := gain_tuple.bypass }
    let s ← members
    _update_rx_freq_switches env (get_rx_frequency s chan) s._rx_bypass_lnas chan
  if dir = TX_DIRECTION ∨ dir = DX_DIRECTION then
    assign fun s => { s with _all_tx_gain := gain }
    assign fun s => { s with _tx_bypass_amp := gain_tuple.bypass }
    let s ← members
    _update_tx_freq_switches env (get_tx_frequency s chan) s._tx_bypass_amp chan
  return gain

/-- Lines 61-70. -/
def _get_all_gain (_chan : Nat) (dir : direction_t) (s : radio_state) : ℚ :=
  if dir = RX_DIRECTION then s._all_rx_gain else s._all_tx_gain

/-! ## Reading the log of calls -/

/-- The value of the local `ad9371_gain` of `_set_all_gain` (lines 29-31). -/
def ad9371_gain (env : hw_env) (gain freq : ℚ) (dir : direction_t) : ℚ :=
  (if dir = RX_DIRECTION then env.AD9371_MAX_RX_GAIN else env.AD9371_MAX_TX_GAIN)
    - (env.get_gain_tuple gain freq dir).ad9371_att

/-- The calls completed between the state `s` and the later state `t`. -/
def new_calls (s t : radio_state) : List call_t := t.calls.drop s.calls.length

/-- A lookup in the gain table. -/
def call_t.is_get_gain_tuple : call_t → Bool
  | .get_gain_tuple _ _ _ => true
  | _ => false

/-- A call of the amplifier IC driver. -/
def call_t.is_ad9371_set_gain : call_t → Bool
  | .ad9371_set_gain _ _ _ => true
  | _ => false

/-- A write to the register sink. -/
def call_t.is_set_gpio_out : call_t → Bool
  | .set_gpio_out _ _ _ => true
  | _ => false

/-- A reconfiguration of the RX frequency switches. -/
def call_t.is_update_rx_freq_switches : call_t → Bool
  | .update_rx_freq_switches _ _ _ => true
  | _ => false

/-- A reconfiguration of the TX frequency switches. -/
def call_t.is_update_tx_freq_switches : call_t → Bool
  | .update_tx_freq_switches _ _ _ => true
  | _ => false

/-- The position of a call in the sequence of `_set_all_gain`: table lookup, IC gain, DSA
attenuation, switches. -/
def call_t.stage : call_t → Nat
  | .get_gain_tuple _ _ _ => 0
  | .ad9371_set_gain _ _ _ => 1
  | .set_gpio_out _ _ _ => 2
  | .update_rx_freq_switches _ _ _ => 3
  | .update_tx_freq_switches _ _ _ => 3

/-- The six cached fields of the specification's `PerChannelGainState` are the same in both
states. -/
def same_cache (s t : radio_state) : Prop :=
  t._all_rx_gain = s._all_rx_gain ∧ t._all_tx_gain = s._all_tx_gain ∧
  t._rx_bypass_lnas = s._rx_bypass_lnas ∧ t._tx_bypass_amp = s._tx_bypass_amp ∧
  t._dsa_rx_att = s._dsa_rx_att ∧ t._dsa_tx_att = s._dsa_tx_att

/-! ## Concrete environments and states used in the examples -/

/-- A gain table that clamps the request to `[0, 50]` dB and splits the missing gain between the
two stages. -/
def table50 (gain _freq : ℚ) (_dir : direction_t) : gain_tuple_t :=
  let g := max 0 (min gain 50)
  { ad9371_att := (50 - g) / 2, dsa_att := (50 - g) / 2, bypass := decide (g < 25) }

/-- An environment in which no collaborator fails. -/
def env0 : hw_env :=
  { get_gain_tuple := table50
    AD9371_MAX_RX_GAIN := 30
    AD9371_MAX_TX_GAIN := 4195 / 100
    fails := fun _ _ => false
    out_of_range := fun _ => 0 }

/-- The state after construction: all caches zero, all registers zero, nothing called. -/
def state0 : radio_state :=
  { _all_rx_gain := 0
    _all_tx_gain := 0
    _rx_bypass_lnas := true
    _tx_bypass_amp := true
    _dsa_rx_att := 0
    _dsa_tx_att := 0
    _gpio := fun _ => 0
    _rx_freq := fun _ => 1000000000
    _tx_freq := fun _ => 1000000000
    calls := [] }

/-- The environment `env0` with RX frequency switches that fail. -/
def env_rx_switch_fails : hw_env :=
  { env0 with fails := fun _ c => c.is_update_rx_freq_switches }

/-- The environment `env0` with a register sink that fails. -/
def env_gpio_fails : hw_env :=
  { env0 with fails := fun _ c => c.is_set_gpio_out }

/-- The out-of-range conversions of the environment wrap: the truncated value is reduced modulo
`2^32`. -/
def wraps (env : hw_env) : Prop :=
  ∀ x : ℚ, env.out_of_range x % 2 ^ 32 = (truncate x % 2 ^ 32).toNat

/-- The environment `env0` with out-of-range conversions to `uint32_t` that wrap. -/
def env_wrapping : hw_env :=
  { env0 with out_of_range := fun x => (truncate x % 2 ^ 32).toNat }

/-- The collaborator calls `_set_all_gain(gain, freq, chan, dir)` makes after the table lookup,
in the order of lines 37-56, when none of them fails: the IC gain, the register-sink writes of
`_dsa_set_att`, and the switch updates with the stored frequency and the bypass flag of the
looked-up tuple. -/
def planned_calls (env : hw_env) (gain freq : ℚ) (chan : Nat) (dir : direction_t)
    (s : radio_state) : List call_t :=
  [call_t.ad9371_set_gain (ad9371_gain env gain freq dir) chan dir] ++
  (if dir = RX_DIRECTION ∨ dir = DX_DIRECTION then
    [call_t.set_gpio_out chan (dsa_val env (env.get_gain_tuple gain freq dir).dsa_att) 0x003F]
   else []) ++
  (if dir = TX_DIRECTION ∨ dir = DX_DIRECTION then
    [call_t.set_gpio_out chan (dsa_val env (env.get_gain_tuple gain freq dir).dsa_att) 0x0FC0]
   else []) ++
  (if dir = RX_DIRECTION ∨ dir = DX_DIRECTION then
    [call_t.update_rx_freq_switches (get_rx_frequency s chan)
      (env.get_gain_tuple gain freq dir).bypass chan]
   else []) ++
  (if dir = TX_DIRECTION ∨ dir = DX_DIRECTION then
    [call_t.update_tx_freq_switches (get_tx_frequency s chan)
      (env.get_gain_tuple gain freq dir).bypass chan]
   else [])

/-! ## The accessors as member functions -/

/-- Lines 61-70 as a member function, `get_gain` of the specification: the outcome of the call
and the state after it. -/
def get_gain (_chan : Nat) (dir : direction_t) : action ℚ := do
  let s ← members
  if dir = RX_DIRECTION then
    return s._all_rx_gain
  return s._all_tx_gain

/-- Lines 95-103 as a member function, `get_attenuation` of the specification: the outcome of
the call and the state after it. -/
def get_attenuation (_chan : Nat) (dir : direction_t) : action ℚ := do
  let s ← members
  if dir = RX_DIRECTION then
    return s._dsa_rx_att
  return s._dsa_tx_att

end magnesium

/-! # The FFT block controller

A shallow embedding of `set_fft_size` of `host/lib/usrp/rfnoc/fft_block_ctrl_impl.cpp`. The
settings-register writes `sr_write(reg, value)` are appended to a log; `uhd::value_error` is the
only exception the function throws itself. -/

namespace fft_block_ctrl_impl

/-- The registers `set_fft_size` writes to: the constant `AXIS_CONFIG_BUS` and the register
named `"FFT_SIZE_LOG2"`. -/
inductive sr_reg_t where
  | AXIS_CONFIG_BUS
  | FFT_SIZE_LOG2
deriving DecidableEq, Repr

/-- A call `sr_write(reg, value)`; the value is a `uint32_t`. -/
structure sr_write_t where
  reg : sr_reg_t
  value : Nat
deriving DecidableEq, Repr

/-- The exception `uhd::value_error`, with its message. -/
structure value_error where
  what : String
deriving DecidableEq, Repr

/-- Lines 116-119, the loop
`while ((fft_size & 1) == 0 and (fft_size > 1)) { fft_size >>= 1; log2_fft_size++; }`:
the values of `fft_size` and `log2_fft_size` when it is left. `Int.land` and `Int.shiftRight`
are the two's complement `&` and the arithmetic `>>` on integers. The counter is a `uint32_t`; an
`int` is halved fewer than 32 times, so the counter does not wrap. -/
def halving_loop (fft_size : ℤ) (log2_fft_size : ℕ) : ℤ × ℕ :=
  if h : Int.land fft_size 1 = 0 ∧ fft_size > 1 then
    halving_loop (Int.shiftRight fft_size 1) (log2_fft_size + 1)
  else (fft_size, log2_fft_size)
termination_by fft_size.toNat
decreasing_by
  have h2 : Int.shiftRight fft_size 1 = fft_size / 2 := by
    have h3 := Int.shiftRight_eq_div_pow fft_size 1
    simpa using h3
  rw [h2]
  omega

/-- Lines 105-129: the outcome of `set_fft_size(fft_size)` and the log of register writes after
it, from the log before it. -/
def set_fft_size (fft_size : ℤ) (written : List sr_write_t) :
    Except value_error Unit × List sr_write_t :=
  if fft_size < 16 ∨ fft_size > 4096 then
    (.error ⟨"FFT size must be a power of two and within [16, 4096]"⟩, written)
  else
    let r := halving_loop fft_size 0
    if r.1 ≠ 1 then
      (.error ⟨"FFT size must be a power of two and within [16, 4096]"⟩, written)
    else
      (.ok (),
        written ++
          [⟨.AXIS_CONFIG_BUS, ((0x6AA <<< 9) + (0 <<< 8) + r.2) % 2 ^ 32⟩,
            ⟨.FFT_SIZE_LOG2, r.2⟩])

end fft_block_ctrl_impl

namespace magnesium

/-! ## Evaluation lemmas -/

theorem bind_apply {α β : Type} (m : action α) (f : α → action β) (s : radio_state) :
    (m >>= f) s = action.seq m f s := rfl

theorem pure_apply {α : Type} (a : α) (s : radio_state) :
    (pure a : action α) s = (Except.ok a, s) := rfl

theorem invoke_ok (env : hw_env) (hnf : ∀ h c, env.fails h c = false) (c : call_t)
    (effect : radio_state → radio_state) (s : radio_state) :
    invoke env c effect s = (.ok (), effect { s with calls := s.calls ++ [c] }) := by
  simp [invoke, hnf]

theorem three_cases (n : Nat) : n = 0 ∨ n = 1 ∨ n = 2 ∨ (n ≠ 0 ∧ n ≠ 1 ∧ n ≠ 2) := by
  omega

theorem direction_cases (dir : direction_t) :
    dir = RX_DIRECTION ∨ dir = TX_DIRECTION ∨ dir = DX_DIRECTION ∨
      (dir ≠ RX_DIRECTION ∧ dir ≠ TX_DIRECTION ∧ dir ≠ DX_DIRECTION) :=
  three_cases dir

/-! ## The masked write on the two fields -/

theorem testBit_63 (i : Nat) : Nat.testBit 63 i = decide (i < 6) := by
  have h : (63 : Nat) = 2 ^ 6 - 1 := by norm_num
  rw [h, Nat.testBit_two_pow_sub_one]

theorem testBit_4095 (i : Nat) : Nat.testBit 4095 i = decide (i < 12) := by
  have h : (4095 : Nat) = 2 ^ 12 - 1 := by norm_num
  rw [h, Nat.testBit_two_pow_sub_one]

theorem testBit_4032 (i : Nat) :
    Nat.testBit 4032 i = (!decide (i < 6) && decide (i < 12)) := by
  have h : (4032 : Nat) = 63 <<< 6 := by decide
  rw [h, Nat.testBit_shiftLeft, testBit_63]
  by_cases h6 : i < 6 <;> by_cases h12 : i < 12 <;> simp [h6, h12] <;> omega

theorem masked_write_rx_field (old v : Nat) : masked_write old v 0x3F &&& 0x3F = v &&& 0x3F := by
  apply Nat.eq_of_testBit_eq
  intro i
  simp only [masked_write, Nat.testBit_and, Nat.testBit_or, Nat.testBit_xor, testBit_63,
    testBit_4095]
  by_cases h6 : i < 6 <;> by_cases h12 : i < 12 <;> first | omega | simp [h6, h12]

theorem masked_write_rx_frame (old v : Nat) :
    masked_write old v 0x3F &&& 0xFC0 = old &&& 0xFC0 := by
  apply Nat.eq_of_testBit_eq
  intro i
  simp only [masked_write, Nat.testBit_and, Nat.testBit_or, Nat.testBit_xor, testBit_63,
    testBit_4095, testBit_4032]
  by_cases h6 : i < 6 <;> by_cases h12 : i < 12 <;> first | omega | simp [h6, h12]

theorem masked_write_tx_field (old v : Nat) :
    masked_write old v 0xFC0 &&& 0xFC0 = v &&& 0xFC0 := by
  apply Nat.eq_of_testBit_eq
  intro i
  simp only [masked_write, Nat.testBit_and, Nat.testBit_or, Nat.testBit_xor,
    testBit_4095, testBit_4032]
  by_cases h6 : i < 6 <;> by_cases h12 : i < 12 <;> first | omega | simp [h6, h12]

theorem masked_write_tx_frame (old v : Nat) :
    masked_write old v 0xFC0 &&& 0x3F = old &&& 0x3F := by
  apply Nat.eq_of_testBit_eq
  intro i
  simp only [masked_write, Nat.testBit_and, Nat.testBit_or, Nat.testBit_xor, testBit_63,
    testBit_4095, testBit_4032]
  by_cases h6 : i < 6 <;> by_cases h12 : i < 12 <;> first | omega | simp [h6, h12]

theorem small_and_4032 (v : Nat) (h : v < 64) : v &&& 0xFC0 = 0 := by
  apply Nat.eq_of_testBit_eq
  intro i
  simp only [Nat.testBit_and, testBit_4032, Nat.zero_testBit]
  by_cases h6 : i < 6
  · simp [h6]
  · have : v < 2 ^ i := lt_of_lt_of_le h (by
      calc 64 = 2 ^ 6 := by norm_num
        _ ≤ 2 ^ i := Nat.pow_le_pow_right (by norm_num) (by omega))
    simp [Nat.testBit_lt_two_pow this]

/-! ## The step code -/

theorem truncate_nonneg {x : ℚ} (hx : 0 ≤ x) : truncate x = ⌊x⌋ := by
  simp [truncate, hx]

theorem double_to_uint32_in_range (ub : ℚ → Nat) {x : ℚ} (h0 : 0 ≤ x) (h1 : x < 2 ^ 32) :
    double_to_uint32 ub x = ⌊x⌋.toNat ∧ ((double_to_uint32 ub x : ℕ) : ℚ) ≤ x ∧
      x < (double_to_uint32 ub x : ℕ) + 1 := by
  have hf0 : 0 ≤ ⌊x⌋ := Int.floor_nonneg.mpr h0
  have hf1 : ⌊x⌋ < 2 ^ 32 := by
    have : ((⌊x⌋ : ℤ) : ℚ) < ((2 ^ 32 : ℤ) : ℚ) := by
      push_cast
      exact lt_of_le_of_lt (Int.floor_le x) h1
    exact_mod_cast this
  have hd : double_to_uint32 ub x = ⌊x⌋.toNat := by
    simp [double_to_uint32, truncate_nonneg h0, hf0]
    intro h; omega
  have hc : ((⌊x⌋.toNat : ℕ) : ℚ) = ((⌊x⌋ : ℤ) : ℚ) := by
    have : ((⌊x⌋.toNat : ℕ) : ℤ) = ⌊x⌋ := Int.toNat_of_nonneg hf0
    exact_mod_cast congrArg (fun z : ℤ => (z : ℚ)) this
  refine ⟨hd, ?_, ?_⟩
  · rw [hd, hc]; exact Int.floor_le x
  · rw [hd, hc]; exact Int.lt_floor_add_one x

theorem double_to_uint32_lt (ub : ℚ → Nat) (x : ℚ) : double_to_uint32 ub x < 2 ^ 32 := by
  unfold double_to_uint32
  split_ifs with h
  · have := h.1; have := h.2; omega
  · exact Nat.mod_lt _ (by norm_num)

/-! ## What `_dsa_set_att` does when no collaborator fails -/

theorem dsa_set_att_rx (env : hw_env) (hnf : ∀ h c, env.fails h c = false) (att : ℚ)
    (chan : Nat) (s : radio_state) :
    _dsa_set_att env att chan RX_DIRECTION s =
      (.ok att,
        { s with
          calls := s.calls ++ [.set_gpio_out chan (dsa_val env att) 0x3F]
          _gpio := Function.update s._gpio chan
            (masked_write (s._gpio chan) (dsa_val env att) 0x3F)
          _dsa_rx_att := att }) := by
  simp [_dsa_set_att, _set_dsa_val, set_gpio_out, invoke_ok env hnf, bind_apply, pure_apply,
    action.seq, assign]

theorem dsa_set_att_tx (env : hw_env) (hnf : ∀ h c, env.fails h c = false) (att : ℚ)
    (chan : Nat) (s : radio_state) :
    _dsa_set_att env att chan TX_DIRECTION s =
      (.ok att,
        { s with
          calls := s.calls ++ [.set_gpio_out chan (dsa_val env att) 0xFC0]
          _gpio := Function.update s._gpio chan
            (masked_write (s._gpio chan) (dsa_val env att) 0xFC0)
          _dsa_tx_att := att }) := by
  simp [_dsa_set_att, _set_dsa_val, set_gpio_out, invoke_ok env hnf, bind_apply, pure_apply,
    action.seq, assign]

theorem dsa_set_att_dx (env : hw_env) (hnf : ∀ h c, env.fails h c = false) (att : ℚ)
    (chan : Nat) (s : radio_state) :
    _dsa_set_att env att chan DX_DIRECTION s =
      (.ok att,
        { s with
          calls := s.calls ++ [.set_gpio_out chan (dsa_val env att) 0x3F,
            .set_gpio_out chan (dsa_val env att) 0xFC0]
          _gpio := Function.update s._gpio chan
            (masked_write (masked_write (s._gpio chan) (dsa_val env att) 0x3F)
              (dsa_val env att) 0xFC0)
          _dsa_rx_att := att
          _dsa_tx_att := att }) := by
  simp [_dsa_set_att, _set_dsa_val, set_gpio_out, invoke_ok env hnf, bind_apply, pure_apply,
    action.seq, assign]

theorem dsa_set_att_other (env : hw_env) (att : ℚ) (chan : Nat) (dir : direction_t)
    (h0 : dir ≠ RX_DIRECTION) (h1 : dir ≠ TX_DIRECTION) (h2 : dir ≠ DX_DIRECTION)
    (s : radio_state) :
    _dsa_set_att env att chan dir s = (.ok att, s) := by
  simp [_dsa_set_att, _set_dsa_val, bind_apply, pure_apply, action.seq, h0, h1, h2]

/-! ## What `_set_all_gain` does when no collaborator fails -/

theorem set_all_gain_rx (env : hw_env) (hnf : ∀ h c, env.fails h c = false) (gain freq : ℚ)
    (chan : Nat) (s : radio_state) :
    _set_all_gain env gain freq chan RX_DIRECTION s =
      (.ok gain,
        { s with
          calls := s.calls ++ [.get_gain_tuple gain freq RX_DIRECTION,
            .ad9371_set_gain (ad9371_gain env gain freq RX_DIRECTION) chan RX_DIRECTION,
            .set_gpio_out chan
              (dsa_val env (env.get_gain_tuple gain freq RX_DIRECTION).dsa_att) 0x3F,
            .update_rx_freq_switches (s._rx_freq chan)
              (env.get_gain_tuple gain freq RX_DIRECTION).bypass chan]
          _gpio := Function.update s._gpio chan
            (masked_write (s._gpio chan)
              (dsa_val env (env.get_gain_tuple gain freq RX_DIRECTION).dsa_att) 0x3F)
          _dsa_rx_att := (env.get_gain_tuple gain freq RX_DIRECTION).dsa_att
          _all_rx_gain := gain
          _rx_bypass_lnas := (env.get_gain_tuple gain freq RX_DIRECTION).bypass }) := by
  simp [_set_all_gain, get_gain_tuple, ad9371_set_gain, _update_rx_freq_switches,
    get_rx_frequency, dsa_set_att_rx env hnf, invoke_ok env hnf, bind_apply, pure_apply,
    action.seq, assign, members, ad9371_gain]

theorem set_all_gain_tx (env : hw_env) (hnf : ∀ h c, env.fails h c = false) (gain freq : ℚ)
    (chan : Nat) (s : radio_state) :
    _set_all_gain env gain freq chan TX_DIRECTION s =
      (.ok gain,
        { s with
          calls := s.calls ++ [.get_gain_tuple gain freq TX_DIRECTION,
            .ad9371_set_gain (ad9371_gain env gain freq TX_DIRECTION) chan TX_DIRECTION,
            .set_gpio_out chan
              (dsa_val env (env.get_gain_tuple gain freq TX_DIRECTION).dsa_att) 0xFC0,
            .update_tx_freq_switches (s._tx_freq chan)
              (env.get_gain_tuple gain freq TX_DIRECTION).bypass chan]
          _gpio := Function.update s._gpio chan
            (masked_write (s._gpio chan)
              (dsa_val env (env.get_gain_tuple gain freq TX_DIRECTION).dsa_att) 0xFC0)
          _dsa_tx_att := (env.get_gain_tuple gain freq TX_DIRECTION).dsa_att
          _all_tx_gain := gain
          _tx_bypass_amp := (env.get_gain_tuple gain freq TX_DIRECTION).bypass }) := by
  simp [_set_all_gain, get_gain_tuple, ad9371_set_gain, _update_tx_freq_switches,
    get_tx_frequency, dsa_set_att_tx env hnf, invoke_ok env hnf, bind_apply, pure_apply,
    action.seq, assign, members, ad9371_gain]

theorem set_all_gain_dx (env : hw_env) (hnf : ∀ h c, env.fails h c = false) (gain freq : ℚ)
    (chan : Nat) (s : radio_state) :
    _set_all_gain env gain freq chan DX_DIRECTION s =
      (.ok gain,
        { s with
          calls := s.calls ++ [.get_gain_tuple gain freq DX_DIRECTION,
            .ad9371_set_gain (ad9371_gain env gain freq DX_DIRECTION) chan DX_DIRECTION,
            .set_gpio_out chan
              (dsa_val env (env.get_gain_tuple gain freq DX_DIRECTION).dsa_att) 0x3F,
            .set_gpio_out chan
              (dsa_val env (env.get_gain_tuple gain freq DX_DIRECTION).dsa_att) 0xFC0,
            .update_rx_freq_switches (s._rx_freq chan)
              (env.get_gain_tuple gain freq DX_DIRECTION).bypass chan,
            .update_tx_freq_switches (s._tx_freq chan)
              (env.get_gain_tuple gain freq DX_DIRECTION).bypass chan]
          _gpio := Function.update s._gpio chan
            (masked_write
              (masked_write (s._gpio chan)
                (dsa_val env (env.get_gain_tuple gain freq DX_DIRECTION).dsa_att) 0x3F)
              (dsa_val env (env.get_gain_tuple gain freq DX_DIRECTION).dsa_att) 0xFC0)
          _dsa_rx_att := (env.get_gain_tuple gain freq DX_DIRECTION).dsa_att
          _dsa_tx_att := (env.get_gain_tuple gain freq DX_DIRECTION).dsa_att
          _all_rx_gain := gain
          _rx_bypass_lnas := (env.get_gain_tuple gain freq DX_DIRECTION).bypass
          _all_tx_gain := gain
          _tx_bypass_amp := (env.get_gain_tuple gain freq DX_DIRECTION).bypass }) := by
  simp [_set_all_gain, get_gain_tuple, ad9371_set_gain, _update_rx_freq_switches,
    _update_tx_freq_switches, get_rx_frequency, get_tx_frequency, dsa_set_att_dx env hnf,
    invoke_ok env hnf, bind_apply, pure_apply, action.seq, assign, members, ad9371_gain]

theorem set_all_gain_other (env : hw_env) (hnf : ∀ h c, env.fails h c = false)
    (gain freq : ℚ) (chan : Nat) (dir : direction_t)
    (h0 : dir ≠ RX_DIRECTION) (h1 : dir ≠ TX_DIRECTION) (h2 : dir ≠ DX_DIRECTION)
    (s : radio_state) :
    _set_all_gain env gain freq chan dir s =
      (.ok gain,
        { s with
          calls := s.calls ++ [.get_gain_tuple gain freq dir,
            .ad9371_set_gain (ad9371_gain env gain freq dir) chan dir] }) := by
  simp [_set_all_gain, get_gain_tuple, ad9371_set_gain, dsa_set_att_other env _ _ dir h0 h1 h2,
    invoke_ok env hnf, bind_apply, pure_apply, action.seq, ad9371_gain, h0, h1, h2]

/-! ## Step codes of particular attenuations -/

theorem dsa_val_eq_floor (env : hw_env) {att : ℚ} (h0 : 0 ≤ att) (h1 : 2 * att < 2 ^ 32) :
    dsa_val env att = ⌊2 * att⌋.toNat :=
  (double_to_uint32_in_range env.out_of_range (by linarith) h1).1

theorem dsa_val_six (env : hw_env) : dsa_val env 6 = 12 := by
  rw [dsa_val_eq_floor env (by norm_num) (by norm_num)]
  have h : ⌊(2 : ℚ) * 6⌋ = 12 := by
    rw [Int.floor_eq_iff]; norm_num
  rw [h]; rfl

theorem dsa_val_two_and_a_half (env : hw_env) : dsa_val env (5 / 2) = 5 := by
  rw [dsa_val_eq_floor env (by norm_num) (by norm_num)]
  have h : ⌊(2 : ℚ) * (5 / 2)⌋ = 5 := by
    rw [Int.floor_eq_iff]; norm_num
  rw [h]; rfl

theorem dsa_val_ten_point_three (env : hw_env) : dsa_val env (103 / 10) = 20 := by
  rw [dsa_val_eq_floor env (by norm_num) (by norm_num)]
  have h : ⌊(2 : ℚ) * (103 / 10)⌋ = 20 := by
    rw [Int.floor_eq_iff]; norm_num
  rw [h]; rfl

theorem env0_never_fails : ∀ h c, env0.fails h c = false := fun _ _ => rfl

/-! ## C1 -/

/-- C1, at the attenuation 6.0 dB on TX, from the all-zero state: the call returns 6.0 and the
register sink receives the step code 12 itself, not 12 shifted into bits 6-11 (which would be
768), with the mask 0x0FC0; under the masked write the bits 6-11 of the register then hold 0 and
not the step code 12. On RX the sink receives the unshifted step code with mask 0x003F and the
bits 0-5 hold it. -/
theorem C1_tx_step_code_is_not_shifted :
    (_dsa_set_att env0 6 0 TX_DIRECTION state0).1 = Except.ok 6 ∧
    (_dsa_set_att env0 6 0 TX_DIRECTION state0).2.calls = [call_t.set_gpio_out 0 12 0x0FC0] ∧
    (12 <<< 6 = 768 ∧ (12 : Nat) ≠ 768) ∧
    ((_dsa_set_att env0 6 0 TX_DIRECTION state0).2._gpio 0 >>> 6) &&& 0x3F = 0 ∧
    (_dsa_set_att env0 6 0 RX_DIRECTION state0).2.calls = [call_t.set_gpio_out 0 12 0x003F] ∧
    (_dsa_set_att env0 6 0 RX_DIRECTION state0).2._gpio 0 &&& 0x3F = 12 := by
  rw [dsa_set_att_tx env0 env0_never_fails, dsa_set_att_rx env0 env0_never_fails]
  refine ⟨rfl, ?_, by decide, ?_, ?_, ?_⟩
  · simp [dsa_val_six, state0]
  · simp only [dsa_val_six, state0, Function.update_same]
    decide
  · simp [dsa_val_six, state0]
  · simp only [dsa_val_six, state0, Function.update_same]
    decide

/-! ## C2 -/

/-- C2 as stated fails: from the all-zero register, after `set_attenuation(6.0, chan, TX)` and
then `set_attenuation(2.5, chan, RX)` the register holds 0x005, its TX bits are 0 and not 0x0C0,
and it is not 0x0C5. -/
theorem C2_register_is_not_0x0C5 :
    (_dsa_set_att env0 (5 / 2) 0 RX_DIRECTION
        (_dsa_set_att env0 6 0 TX_DIRECTION state0).2).2._gpio 0 = 0x005 ∧
    (_dsa_set_att env0 (5 / 2) 0 RX_DIRECTION
        (_dsa_set_att env0 6 0 TX_DIRECTION state0).2).2._gpio 0 &&& 0xFC0 ≠ 0x0C0 ∧
    (_dsa_set_att env0 (5 / 2) 0 RX_DIRECTION
        (_dsa_set_att env0 6 0 TX_DIRECTION state0).2).2._gpio 0 ≠ 0x0C5 := by
  rw [dsa_set_att_tx env0 env0_never_fails, dsa_set_att_rx env0 env0_never_fails]
  simp only [dsa_val_six, dsa_val_two_and_a_half, state0, Function.update_same]
  decide

theorem masked_write_lt (old v : Nat) : masked_write old v 0x3F < 4096 := by
  apply Nat.lt_of_testBit 12
  · simp [masked_write, Nat.testBit_and, Nat.testBit_or, Nat.testBit_xor, testBit_63,
      testBit_4095, testBit_4032]
  · decide
  · intro j hj
    have h12 : ¬ j < 12 := by omega
    have h6 : ¬ j < 6 := by omega
    have hz : Nat.testBit 4096 j = false := by
      have h : (4096 : Nat) = 2 ^ 12 := by norm_num
      rw [h, Nat.testBit_two_pow]
      simp; omega
    simp [masked_write, Nat.testBit_and, Nat.testBit_or, Nat.testBit_xor, testBit_63,
      testBit_4095, testBit_4032, h6, h12, hz]

theorem split_fields (x : Nat) (h : x < 4096) : x = (x &&& 0xFC0) ||| (x &&& 0x3F) := by
  apply Nat.eq_of_testBit_eq
  intro i
  simp only [Nat.testBit_and, Nat.testBit_or, testBit_63, testBit_4032]
  by_cases h6 : i < 6 <;> by_cases h12 : i < 12 <;> first | omega | simp [h6, h12]
  have : x < 2 ^ i := lt_of_lt_of_le h (by
    calc 4096 = 2 ^ 12 := by norm_num
      _ ≤ 2 ^ i := Nat.pow_le_pow_right (by norm_num) (by omega))
  exact Nat.testBit_lt_two_pow this

/-- C2, amended: for every initial register value of a channel, when no collaborator fails,
after `set_attenuation(6.0, chan, TX)` followed by `set_attenuation(2.5, chan, RX)` under the
masked write, the RX bits are 0x005, the TX bits are the ones the TX call left, and the register
value is those TX bits together with 0x005. -/
theorem C2_mask_isolation (env : hw_env) (hnf : ∀ h c, env.fails h c = false) (chan : Nat)
    (s : radio_state) :
    (_dsa_set_att env (5 / 2) chan RX_DIRECTION
        (_dsa_set_att env 6 chan TX_DIRECTION s).2).2._gpio chan &&& 0x3F = 0x005 ∧
    (_dsa_set_att env (5 / 2) chan RX_DIRECTION
        (_dsa_set_att env 6 chan TX_DIRECTION s).2).2._gpio chan &&& 0xFC0 =
      (_dsa_set_att env 6 chan TX_DIRECTION s).2._gpio chan &&& 0xFC0 ∧
    (_dsa_set_att env (5 / 2) chan RX_DIRECTION
        (_dsa_set_att env 6 chan TX_DIRECTION s).2).2._gpio chan =
      ((_dsa_set_att env 6 chan TX_DIRECTION s).2._gpio chan &&& 0xFC0) ||| 0x005 := by
  rw [dsa_set_att_rx env hnf]
  simp only [dsa_val_two_and_a_half, Function.update_same]
  have hrx := masked_write_rx_field ((_dsa_set_att env 6 chan TX_DIRECTION s).2._gpio chan) 5
  have hfr := masked_write_rx_frame ((_dsa_set_att env 6 chan TX_DIRECTION s).2._gpio chan) 5
  have hlt := masked_write_lt ((_dsa_set_att env 6 chan TX_DIRECTION s).2._gpio chan) 5
  have h5 : (5 : Nat) &&& 0x3F = 5 := by decide
  refine ⟨by rw [hrx, h5], hfr, ?_⟩
  have hs := split_fields _ hlt
  rw [hrx, hfr, h5] at hs
  exact hs

/-- C2, amended, at the all-zero state of channel 0 in an environment without failures. -/
theorem C2_mask_isolation_witness :
    (∀ h c, env0.fails h c = false) ∧
    (_dsa_set_att env0 (5 / 2) 0 RX_DIRECTION
        (_dsa_set_att env0 6 0 TX_DIRECTION state0).2).2._gpio 0 &&& 0x3F = 0x005 :=
  ⟨env0_never_fails, (C2_mask_isolation env0 env0_never_fails 0 state0).1⟩

/-! ## C3 -/

/-- C3 as stated fails: at the non-negative attenuation 2147483648 dB the doubled value is
4294967296, and whatever the environment, the step code is a `uint32_t` and does not satisfy
`code <= 2 * att_db < code + 1`. -/
theorem C3_step_code_out_of_range :
    (0 : ℚ) ≤ 2147483648 ∧
    ¬ ∃ env : hw_env, ((dsa_val env 2147483648 : ℕ) : ℚ) ≤ 2 * 2147483648 ∧
        (2 * 2147483648 : ℚ) < (dsa_val env 2147483648 : ℕ) + 1 := by
  refine ⟨by norm_num, ?_⟩
  rintro ⟨env, -, h⟩
  have hlt : dsa_val env 2147483648 < 2 ^ 32 := double_to_uint32_lt _ _
  have hle : dsa_val env 2147483648 + 1 ≤ 4294967296 := by
    have : (2 : ℕ) ^ 32 = 4294967296 := by norm_num
    omega
  have hq : ((dsa_val env 2147483648 : ℕ) : ℚ) + 1 ≤ 4294967296 := by exact_mod_cast hle
  linarith

/-- C3, amended: for every attenuation `att_db` with `0 <= att_db` and `2 * att_db < 2^32`,
when no collaborator fails, `set_attenuation(att_db, chan, RX)` returns and hands the register
sink the step code `floor(2 * att_db)`, truncated and not rounded:
`code <= 2 * att_db < code + 1`. -/
theorem C3_step_code_truncates (env : hw_env) (hnf : ∀ h c, env.fails h c = false) (att : ℚ)
    (chan : Nat) (s : radio_state) (h0 : 0 ≤ att) (h1 : 2 * att < 2 ^ 32) :
    (_dsa_set_att env att chan RX_DIRECTION s).1 = Except.ok att ∧
    (_dsa_set_att env att chan RX_DIRECTION s).2.calls =
      s.calls ++ [call_t.set_gpio_out chan (dsa_val env att) 0x003F] ∧
    dsa_val env att = ⌊2 * att⌋.toNat ∧
    ((dsa_val env att : ℕ) : ℚ) ≤ 2 * att ∧ 2 * att < (dsa_val env att : ℕ) + 1 := by
  have h := double_to_uint32_in_range env.out_of_range (x := 2 * att) (by linarith) h1
  rw [dsa_set_att_rx env hnf]
  exact ⟨rfl, rfl, h.1, h.2.1, h.2.2⟩

/-- C3, amended, at 10.3 dB: the step code handed to the sink is 20, not 21. -/
theorem C3_step_code_truncates_witness :
    ((∀ h c, env0.fails h c = false) ∧ (0 : ℚ) ≤ 103 / 10 ∧ (2 : ℚ) * (103 / 10) < 2 ^ 32) ∧
    dsa_val env0 (103 / 10) = 20 ∧
    (_dsa_set_att env0 (103 / 10) 0 RX_DIRECTION state0).2.calls =
      state0.calls ++ [call_t.set_gpio_out 0 (dsa_val env0 (103 / 10)) 0x003F] :=
  ⟨⟨env0_never_fails, by norm_num, by norm_num⟩, dsa_val_ten_point_three env0,
    (C3_step_code_truncates env0 env0_never_fails (103 / 10) 0 state0 (by norm_num)
      (by norm_num)).2.1⟩

/-! ## C4 -/

/-- C4: for every `gain_db`, frequency, channel and state, when no collaborator fails,
`set_gain(gain_db, freq, chan, RX)` returns and a following `get_gain(chan, RX)` returns exactly
`gain_db`. -/
theorem C4_set_get_gain_round_trip (env : hw_env) (hnf : ∀ h c, env.fails h c = false)
    (gain freq : ℚ) (chan : Nat) (s : radio_state) :
    (_set_all_gain env gain freq chan RX_DIRECTION s).1 = Except.ok gain ∧
    _get_all_gain chan RX_DIRECTION (_set_all_gain env gain freq chan RX_DIRECTION s).2 = gain := by
  rw [set_all_gain_rx env hnf]
  exact ⟨rfl, rfl⟩

/-- C4 at the gain 20 dB and 2 GHz on channel 0. -/
theorem C4_set_get_gain_round_trip_witness :
    (∀ h c, env0.fails h c = false) ∧
    _get_all_gain 0 RX_DIRECTION (_set_all_gain env0 20 2000000000 0 RX_DIRECTION state0).2 = 20 :=
  ⟨env0_never_fails, (C4_set_get_gain_round_trip env0 env0_never_fails 20 2000000000 0 state0).2⟩

/-! ## C5 -/

/-- C5: for every gain table and constants, every `gain_db`, frequency, channel, direction and
state, when no collaborator fails `set_gain` returns the requested `gain_db` itself. -/
theorem C5_set_gain_returns_request (env : hw_env) (hnf : ∀ h c, env.fails h c = false)
    (gain freq : ℚ) (chan : Nat) (dir : direction_t) (s : radio_state) :
    (_set_all_gain env gain freq chan dir s).1 = Except.ok gain := by
  rcases direction_cases dir with rfl | rfl | rfl | ⟨h0, h1, h2⟩
  · rw [set_all_gain_rx env hnf]
  · rw [set_all_gain_tx env hnf]
  · rw [set_all_gain_dx env hnf]
  · rw [set_all_gain_other env hnf gain freq chan dir h0 h1 h2]

/-- C5 at a request whose DSA attenuation (14.85 dB) is not a multiple of the half-dB step: the
request 20.3 dB is returned as it is. -/
theorem C5_set_gain_returns_request_witness :
    (∀ h c, env0.fails h c = false) ∧
    (_set_all_gain env0 (203 / 10) 2000000000 0 TX_DIRECTION state0).1 = Except.ok (203 / 10) :=
  ⟨env0_never_fails,
    C5_set_gain_returns_request env0 env0_never_fails (203 / 10) 2000000000 0 TX_DIRECTION state0⟩

/-! ## C6 -/

theorem table50_clamps (g f : ℚ) (d : direction_t) (h : 50 ≤ g) :
    table50 g f d = table50 50 f d := by
  simp [table50, min_eq_right h]

/-- C6 as stated fails: with the table `table50`, whose maximum supported gain is 50 < 200, and
no collaborator failing, `set_gain(200, freq, chan, RX)` raises no error and returns 200, not
the clamped value 50. -/
theorem C6_returns_200_not_the_maximum :
    ((∀ g f d, (50 : ℚ) ≤ g → env0.get_gain_tuple g f d = env0.get_gain_tuple 50 f d) ∧
      (50 : ℚ) < 200 ∧ ∀ h c, env0.fails h c = false) ∧
    (_set_all_gain env0 200 2000000000 0 RX_DIRECTION state0).1 = Except.ok 200 ∧
    (_set_all_gain env0 200 2000000000 0 RX_DIRECTION state0).1 ≠ Except.ok 50 := by
  refine ⟨⟨fun g f d h => table50_clamps g f d h, by norm_num, env0_never_fails⟩, ?_⟩
  rw [set_all_gain_rx env0 env0_never_fails]
  refine ⟨rfl, ?_⟩
  intro h
  have h2 : (200 : ℚ) = 50 := Except.ok.inj h
  norm_num at h2

/-- C6, amended: for every gain table whose maximum supported gain is `M` (`M < 200`: every
request `g >= M` is looked up as `M`), and when no collaborator fails,
`set_gain(200, freq, chan, dir)` raises no error and returns the requested value 200; what is
clamped is the looked-up tuple: the calls after the lookup, the register and the cached
attenuations and bypass flags are those of a request of `M`. -/
theorem C6_out_of_range_request (env : hw_env) (hnf : ∀ h c, env.fails h c = false) (M : ℚ)
    (hclamp : ∀ g f d, M ≤ g → env.get_gain_tuple g f d = env.get_gain_tuple M f d)
    (hM : M < 200) (freq : ℚ) (chan : Nat) (dir : direction_t) (s : radio_state) :
    (_set_all_gain env 200 freq chan dir s).1 = Except.ok 200 ∧
    (new_calls s (_set_all_gain env 200 freq chan dir s).2).tail =
      (new_calls s (_set_all_gain env M freq chan dir s).2).tail ∧
    (_set_all_gain env 200 freq chan dir s).2._gpio =
      (_set_all_gain env M freq chan dir s).2._gpio ∧
    (_set_all_gain env 200 freq chan dir s).2._dsa_rx_att =
      (_set_all_gain env M freq chan dir s).2._dsa_rx_att ∧
    (_set_all_gain env 200 freq chan dir s).2._dsa_tx_att =
      (_set_all_gain env M freq chan dir s).2._dsa_tx_att ∧
    (_set_all_gain env 200 freq chan dir s).2._rx_bypass_lnas =
      (_set_all_gain env M freq chan dir s).2._rx_bypass_lnas ∧
    (_set_all_gain env 200 freq chan dir s).2._tx_bypass_amp =
      (_set_all_gain env M freq chan dir s).2._tx_bypass_amp := by
  have ht : ∀ d, env.get_gain_tuple 200 freq d = env.get_gain_tuple M freq d :=
    fun d => hclamp 200 freq d hM.le
  rcases direction_cases dir with rfl | rfl | rfl | ⟨h0, h1, h2⟩
  · rw [set_all_gain_rx env hnf, set_all_gain_rx env hnf]
    simp [new_calls, ad9371_gain, ht]
  · rw [set_all_gain_tx env hnf, set_all_gain_tx env hnf]
    simp [new_calls, ad9371_gain, ht]
  · rw [set_all_gain_dx env hnf, set_all_gain_dx env hnf]
    simp [new_calls, ad9371_gain, ht]
  · rw [set_all_gain_other env hnf _ freq chan dir h0 h1 h2,
      set_all_gain_other env hnf _ freq chan dir h0 h1 h2]
    simp [new_calls, ad9371_gain, ht]

/-- C6, amended, with the table `table50` and `M = 50`. -/
theorem C6_out_of_range_request_witness :
    ((∀ h c, env0.fails h c = false) ∧
      (∀ g f d, (50 : ℚ) ≤ g → env0.get_gain_tuple g f d = env0.get_gain_tuple 50 f d) ∧
      (50 : ℚ) < 200) ∧
    (_set_all_gain env0 200 2000000000 0 DX_DIRECTION state0).1 = Except.ok 200 :=
  ⟨⟨env0_never_fails, fun g f d h => table50_clamps g f d h, by norm_num⟩,
    (C6_out_of_range_request env0 env0_never_fails 50 (fun g f d h => table50_clamps g f d h)
      (by norm_num) 2000000000 0 DX_DIRECTION state0).1⟩

/-! ## C7 -/

theorem index_lt_of_stage_lt {l : List call_t} (hl : l.Pairwise fun a b => a.stage ≤ b.stage)
    {i j : Nat} {a b : call_t} (ha : l[i]? = some a) (hb : l[j]? = some b)
    (hab : a.stage < b.stage) : i < j := by
  obtain ⟨hi, rfl⟩ := List.getElem?_eq_some.mp ha
  obtain ⟨hj, rfl⟩ := List.getElem?_eq_some.mp hb
  by_contra hij
  rcases Nat.lt_or_eq_of_le (Nat.le_of_not_lt hij) with hlt | heq
  · have := List.pairwise_iff_getElem.mp hl j i hj hi hlt
    omega
  · subst heq
    omega

theorem set_all_gain_calls_staged (env : hw_env) (hnf : ∀ h c, env.fails h c = false)
    (gain freq : ℚ) (chan : Nat) (dir : direction_t) (s : radio_state) :
    (_set_all_gain env gain freq chan dir s).2.calls =
      s.calls ++ new_calls s (_set_all_gain env gain freq chan dir s).2 ∧
    (new_calls s (_set_all_gain env gain freq chan dir s).2).Pairwise
      (fun a b => a.stage ≤ b.stage) ∧
    (new_calls s (_set_all_gain env gain freq chan dir s).2).countP
      call_t.is_ad9371_set_gain = 1 := by
  rcases direction_cases dir with rfl | rfl | rfl | ⟨h0, h1, h2⟩
  · rw [set_all_gain_rx env hnf]
    simp [new_calls, call_t.stage, call_t.is_ad9371_set_gain, List.countP_cons]
  · rw [set_all_gain_tx env hnf]
    simp [new_calls, call_t.stage, call_t.is_ad9371_set_gain, List.countP_cons]
  · rw [set_all_gain_dx env hnf]
    simp [new_calls, call_t.stage, call_t.is_ad9371_set_gain, List.countP_cons]
  · rw [set_all_gain_other env hnf gain freq chan dir h0 h1 h2]
    simp [new_calls, call_t.stage, call_t.is_ad9371_set_gain, List.countP_cons]

/-- C7: for every `set_gain(gain_db, freq, chan, dir)` in which no collaborator fails, the
calls it makes are ordered: there is exactly one `AmplifierICDriver.set_gain` call, it occurs
strictly before every register-sink write, and every `update_rx`/`update_tx` call occurs
strictly after the IC-gain call and after every register-sink write. -/
theorem C7_effect_order (env : hw_env) (hnf : ∀ h c, env.fails h c = false)
    (gain freq : ℚ) (chan : Nat) (dir : direction_t) (s : radio_state) :
    (_set_all_gain env gain freq chan dir s).2.calls =
      s.calls ++ new_calls s (_set_all_gain env gain freq chan dir s).2 ∧
    (new_calls s (_set_all_gain env gain freq chan dir s).2).countP
      call_t.is_ad9371_set_gain = 1 ∧
    ∀ (i j : Nat) (a b : call_t),
      (new_calls s (_set_all_gain env gain freq chan dir s).2)[i]? = some a →
      (new_calls s (_set_all_gain env gain freq chan dir s).2)[j]? = some b →
      (a.is_ad9371_set_gain = true → b.is_set_gpio_out = true → i < j) ∧
      (a.is_ad9371_set_gain = true →
        (b.is_update_rx_freq_switches = true ∨ b.is_update_tx_freq_switches = true) → i < j) ∧
      (a.is_set_gpio_out = true →
        (b.is_update_rx_freq_switches = true ∨ b.is_update_tx_freq_switches = true) → i < j) := by
  obtain ⟨hcalls, hsorted, hone⟩ := set_all_gain_calls_staged env hnf gain freq chan dir s
  refine ⟨hcalls, hone, ?_⟩
  intro i j a b ha hb
  have key := fun h => index_lt_of_stage_lt hsorted ha hb h
  refine ⟨fun h1 h2 => key ?_, fun h1 h2 => key ?_, fun h1 h2 => key ?_⟩
  · cases a <;> cases b <;> simp_all [call_t.stage, call_t.is_ad9371_set_gain,
      call_t.is_set_gpio_out]
  · cases a <;> cases b <;> simp_all [call_t.stage, call_t.is_ad9371_set_gain,
      call_t.is_update_rx_freq_switches, call_t.is_update_tx_freq_switches]
  · cases a <;> cases b <;> simp_all [call_t.stage, call_t.is_set_gpio_out,
      call_t.is_update_rx_freq_switches, call_t.is_update_tx_freq_switches]

/-- C7 for the combined direction, at 20 dB and 2 GHz on channel 0. -/
theorem C7_effect_order_witness :
    (∀ h c, env0.fails h c = false) ∧
    (_set_all_gain env0 20 2000000000 0 DX_DIRECTION state0).2.calls =
      state0.calls ++ new_calls state0 (_set_all_gain env0 20 2000000000 0 DX_DIRECTION state0).2 ∧
    (new_calls state0 (_set_all_gain env0 20 2000000000 0 DX_DIRECTION state0).2).countP
      call_t.is_ad9371_set_gain = 1 :=
  ⟨env0_never_fails,
    (C7_effect_order env0 env0_never_fails 20 2000000000 0 DX_DIRECTION state0).1,
    (C7_effect_order env0 env0_never_fails 20 2000000000 0 DX_DIRECTION state0).2.1⟩

/-! ## C8 -/

/-- C8 as stated fails: when `update_rx` fails, the error reaches the caller but `rx_bypass`
(and `rx_gain`) already hold the new values. -/
theorem C8_rx_bypass_updated_before_failure :
    (_set_all_gain env_rx_switch_fails 40 2000000000 0 RX_DIRECTION state0).1 =
      Except.error ⟨call_t.update_rx_freq_switches 1000000000 false 0⟩ ∧
    state0._rx_bypass_lnas = true ∧
    (_set_all_gain env_rx_switch_fails 40 2000000000 0 RX_DIRECTION state0).2._rx_bypass_lnas =
      false := by
  simp [_set_all_gain, _dsa_set_att, _set_dsa_val, get_gain_tuple, ad9371_set_gain,
    set_gpio_out, _update_rx_freq_switches, get_rx_frequency, invoke, bind_apply, pure_apply,
    action.seq, assign, members, env_rx_switch_fails, env0, state0, table50,
    call_t.is_update_rx_freq_switches]
  norm_num

theorem bind_eq_seq {α β : Type} (m : action α) (f : α → action β) :
    (m >>= f) = action.seq m f := rfl

theorem pure_eq_ret {α : Type} (a : α) : (pure a : action α) = action.ret a := rfl

theorem seq_assoc {α β γ : Type} (m : action α) (f : α → action β) (g : β → action γ) :
    action.seq (action.seq m f) g = action.seq m fun a => action.seq (f a) g := by
  funext s
  simp only [action.seq]
  rcases m s with ⟨r | r, s1⟩ <;> rfl

theorem ret_seq {α β : Type} (a : α) (f : α → action β) : action.seq (action.ret a) f = f a :=
  rfl

theorem ret_apply {α : Type} (a : α) (s : radio_state) : action.ret a s = (Except.ok a, s) :=
  rfl

theorem seq_invoke_apply {β : Type} (env : hw_env) (c : call_t)
    (effect : radio_state → radio_state) (f : Unit → action β) (s : radio_state) :
    action.seq (invoke env c effect) f s =
      if env.fails s.calls c = true then (Except.error ⟨c⟩, s)
      else f () (effect { s with calls := s.calls ++ [c] }) := by
  simp only [action.seq, invoke]
  split_ifs <;> rfl

theorem seq_assign_apply {β : Type} (g : radio_state → radio_state) (f : Unit → action β)
    (s : radio_state) : action.seq (assign g) f s = f () (g s) := rfl

theorem seq_members_apply {β : Type} (f : radio_state → action β) (s : radio_state) :
    action.seq members f s = f s s := rfl

theorem seq_get_gain_tuple_apply {β : Type} (env : hw_env) (gain freq : ℚ) (dir : direction_t)
    (f : gain_tuple_t → action β) (s : radio_state) :
    action.seq (get_gain_tuple env gain freq dir) f s =
      f (env.get_gain_tuple gain freq dir)
        { s with calls := s.calls ++ [.get_gain_tuple gain freq dir] } := rfl

/-- The state in which `_set_all_gain` ends when it ends with an error, by the collaborator whose
call failed. -/
theorem state_after_failure (env : hw_env) (gain freq : ℚ) (chan : Nat) (dir : direction_t)
    (s : radio_state) (e : hw_error)
    (h : (_set_all_gain env gain freq chan dir s).1 = Except.error e) :
    env.fails (_set_all_gain env gain freq chan dir s).2.calls e.failed = true ∧
    (e.failed.is_ad9371_set_gain = true →
      same_cache s (_set_all_gain env gain freq chan dir s).2 ∧
      (_set_all_gain env gain freq chan dir s).2._gpio = s._gpio) ∧
    (e.failed.is_set_gpio_out = true →
      same_cache s (_set_all_gain env gain freq chan dir s).2) ∧
    (e.failed.is_update_rx_freq_switches = true →
      (_set_all_gain env gain freq chan dir s).2._all_rx_gain = gain ∧
      (_set_all_gain env gain freq chan dir s).2._rx_bypass_lnas =
        (env.get_gain_tuple gain freq dir).bypass ∧
      (_set_all_gain env gain freq chan dir s).2._all_tx_gain = s._all_tx_gain ∧
      (_set_all_gain env gain freq chan dir s).2._tx_bypass_amp = s._tx_bypass_amp) ∧
    (e.failed.is_update_tx_freq_switches = true →
      (_set_all_gain env gain freq chan dir s).2._all_tx_gain = gain ∧
      (_set_all_gain env gain freq chan dir s).2._tx_bypass_amp =
        (env.get_gain_tuple gain freq dir).bypass) := by
  rcases direction_cases dir with rfl | rfl | rfl | ⟨h0, h1, h2⟩
  · simp [_set_all_gain, _dsa_set_att, _set_dsa_val, ad9371_set_gain, set_gpio_out,
      _update_rx_freq_switches, _update_tx_freq_switches, bind_eq_seq, pure_eq_ret, seq_assoc,
      ret_seq, seq_invoke_apply, seq_assign_apply, seq_members_apply,
      seq_get_gain_tuple_apply, ret_apply, get_rx_frequency, get_tx_frequency] at h ⊢
    split_ifs at h ⊢ <;> simp at h <;> subst h <;>
      simp_all [same_cache, call_t.is_ad9371_set_gain, call_t.is_set_gpio_out,
        call_t.is_update_rx_freq_switches, call_t.is_update_tx_freq_switches]
  · simp [_set_all_gain, _dsa_set_att, _set_dsa_val, ad9371_set_gain, set_gpio_out,
      _update_rx_freq_switches, _update_tx_freq_switches, bind_eq_seq, pure_eq_ret, seq_assoc,
      ret_seq, seq_invoke_apply, seq_assign_apply, seq_members_apply,
      seq_get_gain_tuple_apply, ret_apply, get_rx_frequency, get_tx_frequency] at h ⊢
    split_ifs at h ⊢ <;> simp at h <;> subst h <;>
      simp_all [same_cache, call_t.is_ad9371_set_gain, call_t.is_set_gpio_out,
        call_t.is_update_rx_freq_switches, call_t.is_update_tx_freq_switches]
  · simp [_set_all_gain, _dsa_set_att, _set_dsa_val, ad9371_set_gain, set_gpio_out,
      _update_rx_freq_switches, _update_tx_freq_switches, bind_eq_seq, pure_eq_ret, seq_assoc,
      ret_seq, seq_invoke_apply, seq_assign_apply, seq_members_apply,
      seq_get_gain_tuple_apply, ret_apply, get_rx_frequency, get_tx_frequency] at h ⊢
    split_ifs at h ⊢ <;> simp at h <;> subst h <;>
      simp_all [same_cache, call_t.is_ad9371_set_gain, call_t.is_set_gpio_out,
        call_t.is_update_rx_freq_switches, call_t.is_update_tx_freq_switches]
  · simp [_set_all_gain, _dsa_set_att, _set_dsa_val, ad9371_set_gain, set_gpio_out,
      _update_rx_freq_switches, _update_tx_freq_switches, bind_eq_seq, pure_eq_ret, seq_assoc,
      ret_seq, seq_invoke_apply, seq_assign_apply, seq_members_apply,
      seq_get_gain_tuple_apply, ret_apply, get_rx_frequency, get_tx_frequency,
      h0, h1, h2] at h ⊢
    split_ifs at h ⊢ with hf
    simp at h
    subst h
    simp_all [same_cache, call_t.is_ad9371_set_gain, call_t.is_set_gpio_out,
      call_t.is_update_rx_freq_switches, call_t.is_update_tx_freq_switches]

theorem table50_at_40 (f : ℚ) (d : direction_t) :
    table50 40 f d = { ad9371_att := 5, dsa_att := 5, bypass := false } := by
  simp [table50]
  norm_num

theorem table50_at_20 (f : ℚ) (d : direction_t) :
    table50 20 f d = { ad9371_att := 15, dsa_att := 15, bypass := true } := by
  simp [table50]
  norm_num

theorem dsa_val_five (env : hw_env) : dsa_val env 5 = 10 := by
  rw [dsa_val_eq_floor env (by norm_num) (by norm_num)]
  have h : ⌊(2 : ℚ) * 5⌋ = 10 := by
    rw [Int.floor_eq_iff]; norm_num
  rw [h]; rfl

/-- When no collaborator fails, the calls `_set_all_gain` makes are the lookup followed by
`planned_calls`. -/
theorem planned_calls_are_made (env : hw_env) (hnf : ∀ h c, env.fails h c = false)
    (gain freq : ℚ) (chan : Nat) (dir : direction_t) (s : radio_state) :
    new_calls s (_set_all_gain env gain freq chan dir s).2 =
      call_t.get_gain_tuple gain freq dir :: planned_calls env gain freq chan dir s := by
  rcases direction_cases dir with rfl | rfl | rfl | ⟨h0, h1, h2⟩
  · rw [set_all_gain_rx env hnf]
    simp [new_calls, planned_calls, get_rx_frequency]
  · rw [set_all_gain_tx env hnf]
    simp [new_calls, planned_calls, get_tx_frequency]
  · rw [set_all_gain_dx env hnf]
    simp [new_calls, planned_calls, get_rx_frequency, get_tx_frequency]
  · rw [set_all_gain_other env hnf gain freq chan dir h0 h1 h2]
    simp [new_calls, planned_calls, h0, h1, h2]

theorem first_failure (env : hw_env) (gain freq : ℚ) (chan : Nat) (dir : direction_t)
    (s : radio_state) (k : Nat) (c : call_t)
    (hc : (planned_calls env gain freq chan dir s)[k]? = some c)
    (hbefore : ∀ i c', i < k → (planned_calls env gain freq chan dir s)[i]? = some c' →
      env.fails (s.calls ++ call_t.get_gain_tuple gain freq dir ::
        (planned_calls env gain freq chan dir s).take i) c' = false)
    (hfail : env.fails (s.calls ++ call_t.get_gain_tuple gain freq dir ::
        (planned_calls env gain freq chan dir s).take k) c = true) :
    (_set_all_gain env gain freq chan dir s).1 = Except.error ⟨c⟩ ∧
    (_set_all_gain env gain freq chan dir s).2.calls =
      s.calls ++ call_t.get_gain_tuple gain freq dir ::
        (planned_calls env gain freq chan dir s).take k := by
  rcases direction_cases dir with rfl | rfl | rfl | ⟨h0, h1, h2⟩
  · rcases k with _ | _ | _ | k
    · simp [planned_calls] at hc hfail
      subst hc
      simp [_set_all_gain, _dsa_set_att, _set_dsa_val, ad9371_set_gain, set_gpio_out,
        _update_rx_freq_switches, _update_tx_freq_switches, bind_eq_seq, pure_eq_ret, seq_assoc,
        ret_seq, seq_invoke_apply, seq_assign_apply, seq_members_apply,
        seq_get_gain_tuple_apply, ret_apply, get_rx_frequency, get_tx_frequency, planned_calls,
        ad9371_gain] at hfail ⊢
      simp [hfail]
    · have b0 := hbefore 0 _ (by omega) rfl
      simp [planned_calls] at hc hfail b0
      subst hc
      simp [_set_all_gain, _dsa_set_att, _set_dsa_val, ad9371_set_gain, set_gpio_out,
        _update_rx_freq_switches, _update_tx_freq_switches, bind_eq_seq, pure_eq_ret, seq_assoc,
        ret_seq, seq_invoke_apply, seq_assign_apply, seq_members_apply,
        seq_get_gain_tuple_apply, ret_apply, get_rx_frequency, get_tx_frequency, planned_calls,
        ad9371_gain] at hfail b0 ⊢
      simp [hfail, b0]
    · have b0 := hbefore 0 _ (by omega) rfl
      have b1 := hbefore 1 _ (by omega) rfl
      simp [planned_calls] at hc hfail b0 b1
      subst hc
      simp [_set_all_gain, _dsa_set_att, _set_dsa_val, ad9371_set_gain, set_gpio_out,
        _update_rx_freq_switches, _update_tx_freq_switches, bind_eq_seq, pure_eq_ret, seq_assoc,
        ret_seq, seq_invoke_apply, seq_assign_apply, seq_members_apply,
        seq_get_gain_tuple_apply, ret_apply, get_rx_frequency, get_tx_frequency, planned_calls,
        ad9371_gain] at hfail b0 b1 ⊢
      simp [hfail, b0, b1]
    · simp [planned_calls] at hc
  · rcases k with _ | _ | _ | k
    · simp [planned_calls] at hc hfail
      subst hc
      simp [_set_all_gain, _dsa_set_att, _set_dsa_val, ad9371_set_gain, set_gpio_out,
        _update_rx_freq_switches, _update_tx_freq_switches, bind_eq_seq, pure_eq_ret, seq_assoc,
        ret_seq, seq_invoke_apply, seq_assign_apply, seq_members_apply,
        seq_get_gain_tuple_apply, ret_apply, get_rx_frequency, get_tx_frequency, planned_calls,
        ad9371_gain] at hfail ⊢
      simp [hfail]
    · have b0 := hbefore 0 _ (by omega) rfl
      simp [planned_calls] at hc hfail b0
      subst hc
      simp [_set_all_gain, _dsa_set_att, _set_dsa_val, ad9371_set_gain, set_gpio_out,
        _update_rx_freq_switches, _update_tx_freq_switches, bind_eq_seq, pure_eq_ret, seq_assoc,
        ret_seq, seq_invoke_apply, seq_assign_apply, seq_members_apply,
        seq_get_gain_tuple_apply, ret_apply, get_rx_frequency, get_tx_frequency, planned_calls,
        ad9371_gain] at hfail b0 ⊢
      simp [hfail, b0]
    · have b0 := hbefore 0 _ (by omega) rfl
      have b1 := hbefore 1 _ (by omega) rfl
      simp [planned_calls] at hc hfail b0 b1
      subst hc
      simp [_set_all_gain, _dsa_set_att, _set_dsa_val, ad9371_set_gain, set_gpio_out,
        _update_rx_freq_switches, _update_tx_freq_switches, bind_eq_seq, pure_eq_ret, seq_assoc,
        ret_seq, seq_invoke_apply, seq_assign_apply, seq_members_apply,
        seq_get_gain_tuple_apply, ret_apply, get_rx_frequency, get_tx_frequency, planned_calls,
        ad9371_gain] at hfail b0 b1 ⊢
      simp [hfail, b0, b1]
    · simp [planned_calls] at hc
  · rcases k with _ | _ | _ | _ | _ | k
    · simp [planned_calls] at hc hfail
      subst hc
      simp [_set_all_gain, _dsa_set_att, _set_dsa_val, ad9371_set_gain, set_gpio_out,
        _update_rx_freq_switches, _update_tx_freq_switches, bind_eq_seq, pure_eq_ret, seq_assoc,
        ret_seq, seq_invoke_apply, seq_assign_apply, seq_members_apply,
        seq_get_gain_tuple_apply, ret_apply, get_rx_frequency, get_tx_frequency, planned_calls,
        ad9371_gain] at hfail ⊢
      simp [hfail]
    · have b0 := hbefore 0 _ (by omega) rfl
      simp [planned_calls] at hc hfail b0
      subst hc
      simp [_set_all_gain, _dsa_set_att, _set_dsa_val, ad9371_set_gain, set_gpio_out,
        _update_rx_freq_switches, _update_tx_freq_switches, bind_eq_seq, pure_eq_ret, seq_assoc,
        ret_seq, seq_invoke_apply, seq_assign_apply, seq_members_apply,
        seq_get_gain_tuple_apply, ret_apply, get_rx_frequency, get_tx_frequency, planned_calls,
        ad9371_gain] at hfail b0 ⊢
      simp [hfail, b0]
    · have b0 := hbefore 0 _ (by omega) rfl
      have b1 := hbefore 1 _ (by omega) rfl
      simp [planned_calls] at hc hfail b0 b1
      subst hc
      simp [_set_all_gain, _dsa_set_att, _set_dsa_val, ad9371_set_gain, set_gpio_out,
        _update_rx_freq_switches, _update_tx_freq_switches, bind_eq_seq, pure_eq_ret, seq_assoc,
        ret_seq, seq_invoke_apply, seq_assign_apply, seq_members_apply,
        seq_get_gain_tuple_apply, ret_apply, get_rx_frequency, get_tx_frequency, planned_calls,
        ad9371_gain] at hfail b0 b1 ⊢
      simp [hfail, b0, b1]
    · have b0 := hbefore 0 _ (by omega) rfl
      have b1 := hbefore 1 _ (by omega) rfl
      have b2 := hbefore 2 _ (by omega) rfl
      simp [planned_calls] at hc hfail b0 b1 b2
      subst hc
      simp [_set_all_gain, _dsa_set_att, _set_dsa_val, ad9371_set_gain, set_gpio_out,
        _update_rx_freq_switches, _update_tx_freq_switches, bind_eq_seq, pure_eq_ret, seq_assoc,
        ret_seq, seq_invoke_apply, seq_assign_apply, seq_members_apply,
        seq_get_gain_tuple_apply, ret_apply, get_rx_frequency, get_tx_frequency, planned_calls,
        ad9371_gain] at hfail b0 b1 b2 ⊢
      simp [hfail, b0, b1, b2]
    · have b0 := hbefore 0 _ (by omega) rfl
      have b1 := hbefore 1 _ (by omega) rfl
      have b2 := hbefore 2 _ (by omega) rfl
      have b3 := hbefore 3 _ (by omega) rfl
      simp [planned_calls] at hc hfail b0 b1 b2 b3
      subst hc
      simp [_set_all_gain, _dsa_set_att, _set_dsa_val, ad9371_set_gain, set_gpio_out,
        _update_rx_freq_switches, _update_tx_freq_switches, bind_eq_seq, pure_eq_ret, seq_assoc,
        ret_seq, seq_invoke_apply, seq_assign_apply, seq_members_apply,
        seq_get_gain_tuple_apply, ret_apply, get_rx_frequency, get_tx_frequency, planned_calls,
        ad9371_gain] at hfail b0 b1 b2 b3 ⊢
      simp [hfail, b0, b1, b2, b3]
    · simp [planned_calls] at hc
  · rcases k with _ | k
    · simp [planned_calls, h0, h1, h2] at hc hfail
      subst hc
      simp [_set_all_gain, _dsa_set_att, _set_dsa_val, ad9371_set_gain, set_gpio_out,
        _update_rx_freq_switches, _update_tx_freq_switches, bind_eq_seq, pure_eq_ret, seq_assoc,
        ret_seq, seq_invoke_apply, seq_assign_apply, seq_members_apply,
        seq_get_gain_tuple_apply, ret_apply, get_rx_frequency, get_tx_frequency, planned_calls,
        ad9371_gain, h0, h1, h2] at hfail ⊢
      simp [hfail]
    · simp [planned_calls, h0, h1, h2] at hc

/-- C8, amended: with the IC driver, register sink and switch controller as operations that may
fail, whenever one of the calls `set_gain` makes fails (the first `k` calls succeed and the next
one, `c`, fails), the call ends with the error of `c`, having completed exactly the calls before
it; an IC-driver failure leaves the six cached fields and the registers unchanged; a
register-sink failure leaves the six cached fields unchanged; a failure of `update_rx` happens
after `rx_gain` and `rx_bypass` were assigned their new values, which stay, and leaves `tx_gain`
and `tx_bypass` unchanged; a failure of `update_tx` happens after `tx_gain` and `tx_bypass` were
assigned their new values, which stay. -/
theorem C8_failure_is_propagated (env : hw_env) (gain freq : ℚ) (chan : Nat)
    (dir : direction_t) (s : radio_state) (k : Nat) (c : call_t)
    (hc : (planned_calls env gain freq chan dir s)[k]? = some c)
    (hbefore : ∀ i c', i < k → (planned_calls env gain freq chan dir s)[i]? = some c' →
      env.fails (s.calls ++ call_t.get_gain_tuple gain freq dir ::
        (planned_calls env gain freq chan dir s).take i) c' = false)
    (hfail : env.fails (s.calls ++ call_t.get_gain_tuple gain freq dir ::
        (planned_calls env gain freq chan dir s).take k) c = true) :
    (_set_all_gain env gain freq chan dir s).1 = Except.error ⟨c⟩ ∧
    (_set_all_gain env gain freq chan dir s).2.calls =
      s.calls ++ call_t.get_gain_tuple gain freq dir ::
        (planned_calls env gain freq chan dir s).take k ∧
    (c.is_ad9371_set_gain = true →
      same_cache s (_set_all_gain env gain freq chan dir s).2 ∧
      (_set_all_gain env gain freq chan dir s).2._gpio = s._gpio) ∧
    (c.is_set_gpio_out = true →
      same_cache s (_set_all_gain env gain freq chan dir s).2) ∧
    (c.is_update_rx_freq_switches = true →
      (_set_all_gain env gain freq chan dir s).2._all_rx_gain = gain ∧
      (_set_all_gain env gain freq chan dir s).2._rx_bypass_lnas =
        (env.get_gain_tuple gain freq dir).bypass ∧
      (_set_all_gain env gain freq chan dir s).2._all_tx_gain = s._all_tx_gain ∧
      (_set_all_gain env gain freq chan dir s).2._tx_bypass_amp = s._tx_bypass_amp) ∧
    (c.is_update_tx_freq_switches = true →
      (_set_all_gain env gain freq chan dir s).2._all_tx_gain = gain ∧
      (_set_all_gain env gain freq chan dir s).2._tx_bypass_amp =
        (env.get_gain_tuple gain freq dir).bypass) := by
  obtain ⟨herr, hcalls⟩ := first_failure env gain freq chan dir s k c hc hbefore hfail
  obtain ⟨-, hic, hsink, hrx, htx⟩ := state_after_failure env gain freq chan dir s ⟨c⟩ herr
  exact ⟨herr, hcalls, hic, hsink, hrx, htx⟩

/-- C8, amended, in the combined direction at a register sink that fails: the IC call succeeds,
the first sink write fails, its error reaches the caller and the six cached fields are the ones
before the call. -/
theorem C8_failure_is_propagated_witness :
    (_set_all_gain env_gpio_fails 40 2000000000 0 DX_DIRECTION state0).1 =
      Except.error ⟨call_t.set_gpio_out 0 10 0x003F⟩ ∧
    same_cache state0 (_set_all_gain env_gpio_fails 40 2000000000 0 DX_DIRECTION state0).2 := by
  have h := C8_failure_is_propagated env_gpio_fails 40 2000000000 0 DX_DIRECTION state0 1
    (call_t.set_gpio_out 0 10 0x003F)
    (by simp [planned_calls, env_gpio_fails, env0, table50_at_40, dsa_val_five])
    (by
      intro i c' hi hc'
      have hi0 : i = 0 := by omega
      subst hi0
      simp [planned_calls] at hc'
      subst hc'
      rfl)
    rfl
  exact ⟨h.1, h.2.2.2.1 rfl⟩

/-! ## C9 -/

/-- C9 as stated fails: with the channel tuned to 1 GHz, `set_gain(20, 2e9, chan, RX)` invokes
`update_rx` with the stored 1 GHz, and with no other frequency, in particular not with the
`freq_hz` argument 2 GHz. -/
theorem C9_update_rx_gets_stored_frequency :
    (∀ h c, env0.fails h c = false) ∧
    call_t.update_rx_freq_switches 1000000000 true 0 ∈
      new_calls state0 (_set_all_gain env0 20 2000000000 0 RX_DIRECTION state0).2 ∧
    ∀ b : Bool, call_t.update_rx_freq_switches 2000000000 b 0 ∉
      new_calls state0 (_set_all_gain env0 20 2000000000 0 RX_DIRECTION state0).2 := by
  refine ⟨env0_never_fails, ?_⟩
  rw [set_all_gain_rx env0 env0_never_fails]
  simp [new_calls, state0, env0, table50_at_20]

/-- C9, amended: for every `gain_db`, frequency, channel and state, when no collaborator fails,
`set_gain` with `dir` in {RX, BOTH} invokes `update_rx` exactly once, with the RX frequency
stored for the channel (`get_rx_frequency(chan)`, not the `freq_hz` argument), the bypass flag
of the looked-up tuple, and `chan`; symmetrically `dir` in {TX, BOTH} invokes `update_tx`
exactly once with `get_tx_frequency(chan)`, that bypass flag and `chan`. -/
theorem C9_switch_update_arguments (env : hw_env) (hnf : ∀ h c, env.fails h c = false)
    (gain freq : ℚ) (chan : Nat) (dir : direction_t) (s : radio_state) :
    (dir = RX_DIRECTION ∨ dir = DX_DIRECTION →
      (new_calls s (_set_all_gain env gain freq chan dir s).2).filter
          call_t.is_update_rx_freq_switches =
        [call_t.update_rx_freq_switches (get_rx_frequency s chan)
          (env.get_gain_tuple gain freq dir).bypass chan]) ∧
    (dir = TX_DIRECTION ∨ dir = DX_DIRECTION →
      (new_calls s (_set_all_gain env gain freq chan dir s).2).filter
          call_t.is_update_tx_freq_switches =
        [call_t.update_tx_freq_switches (get_tx_frequency s chan)
          (env.get_gain_tuple gain freq dir).bypass chan]) := by
  rcases direction_cases dir with rfl | rfl | rfl | ⟨h0, h1, h2⟩
  · rw [set_all_gain_rx env hnf]
    simp [new_calls, List.filter_cons, call_t.is_update_rx_freq_switches, get_rx_frequency]
  · rw [set_all_gain_tx env hnf]
    simp [new_calls, List.filter_cons, call_t.is_update_tx_freq_switches, get_tx_frequency]
  · rw [set_all_gain_dx env hnf]
    simp [new_calls, List.filter_cons, call_t.is_update_rx_freq_switches,
      call_t.is_update_tx_freq_switches, get_rx_frequency, get_tx_frequency]
  · simp [h0, h1, h2]

/-- C9, amended, for the combined direction at 20 dB on channel 0, tuned to 1 GHz. -/
theorem C9_switch_update_arguments_witness :
    ((∀ h c, env0.fails h c = false) ∧ (DX_DIRECTION = RX_DIRECTION ∨ DX_DIRECTION = DX_DIRECTION)) ∧
    (new_calls state0 (_set_all_gain env0 20 2000000000 0 DX_DIRECTION state0).2).filter
        call_t.is_update_rx_freq_switches =
      [call_t.update_rx_freq_switches (get_rx_frequency state0 0)
        (env0.get_gain_tuple 20 2000000000 DX_DIRECTION).bypass 0] :=
  ⟨⟨env0_never_fails, Or.inr rfl⟩,
    (C9_switch_update_arguments env0 env0_never_fails 20 2000000000 0 DX_DIRECTION state0).1
      (Or.inr rfl)⟩

/-! ## C10 -/

/-- C10: for every `gain_db`, frequency, channel and state, when no collaborator fails,
`set_gain(gain_db, freq, chan, BOTH)` returns, performs exactly one gain-table lookup (for
`gain_db`, `freq` and BOTH), sets both `rx_gain` and `tx_gain` to `gain_db`, sets both
`rx_bypass` and `tx_bypass` to the bypass flag of that tuple, and invokes `update_rx` and
`update_tx` exactly once each. -/
theorem C10_both_directions (env : hw_env) (hnf : ∀ h c, env.fails h c = false)
    (gain freq : ℚ) (chan : Nat) (s : radio_state) :
    (_set_all_gain env gain freq chan DX_DIRECTION s).1 = Except.ok gain ∧
    (new_calls s (_set_all_gain env gain freq chan DX_DIRECTION s).2).filter
        call_t.is_get_gain_tuple = [call_t.get_gain_tuple gain freq DX_DIRECTION] ∧
    (_set_all_gain env gain freq chan DX_DIRECTION s).2._all_rx_gain = gain ∧
    (_set_all_gain env gain freq chan DX_DIRECTION s).2._all_tx_gain = gain ∧
    (_set_all_gain env gain freq chan DX_DIRECTION s).2._rx_bypass_lnas =
      (env.get_gain_tuple gain freq DX_DIRECTION).bypass ∧
    (_set_all_gain env gain freq chan DX_DIRECTION s).2._tx_bypass_amp =
      (env.get_gain_tuple gain freq DX_DIRECTION).bypass ∧
    (new_calls s (_set_all_gain env gain freq chan DX_DIRECTION s).2).countP
        call_t.is_update_rx_freq_switches = 1 ∧
    (new_calls s (_set_all_gain env gain freq chan DX_DIRECTION s).2).countP
        call_t.is_update_tx_freq_switches = 1 := by
  rw [set_all_gain_dx env hnf]
  simp [new_calls, List.filter_cons, List.countP_cons, call_t.is_get_gain_tuple,
    call_t.is_update_rx_freq_switches, call_t.is_update_tx_freq_switches]

/-- C10 at the gain 20.0 dB and 2.0e9 Hz: `rx_gain = tx_gain = 20.0`. -/
theorem C10_both_directions_witness :
    (∀ h c, env0.fails h c = false) ∧
    (_set_all_gain env0 20 2000000000 0 DX_DIRECTION state0).2._all_rx_gain = 20 ∧
    (_set_all_gain env0 20 2000000000 0 DX_DIRECTION state0).2._all_tx_gain = 20 :=
  ⟨env0_never_fails,
    (C10_both_directions env0 env0_never_fails 20 2000000000 0 state0).2.2.1,
    (C10_both_directions env0 env0_never_fails 20 2000000000 0 state0).2.2.2.1⟩

end magnesium

namespace fft_block_ctrl_impl

/-! ## The halving loop -/

theorem land_one_natCast (n : ℕ) : Int.land (n : ℤ) 1 = ((n % 2 : ℕ) : ℤ) := by
  show ((n &&& 1 : ℕ) : ℤ) = ((n % 2 : ℕ) : ℤ)
  rw [Nat.and_one_is_mod]

theorem shiftRight_one_natCast (n : ℕ) : Int.shiftRight (n : ℤ) 1 = ((n / 2 : ℕ) : ℤ) := by
  show ((n >>> 1 : ℕ) : ℤ) = ((n / 2 : ℕ) : ℤ)
  rw [Nat.shiftRight_eq_div_pow]

theorem halving_loop_even (n k : ℕ) (h0 : n % 2 = 0) (h1 : 1 < n) :
    halving_loop (n : ℤ) k = halving_loop ((n / 2 : ℕ) : ℤ) (k + 1) := by
  rw [halving_loop, land_one_natCast, shiftRight_one_natCast, dif_pos]
  exact ⟨by exact_mod_cast h0, by exact_mod_cast h1⟩

theorem halving_loop_stop (n k : ℕ) (h : n % 2 = 1 ∨ n ≤ 1) :
    halving_loop (n : ℤ) k = ((n : ℤ), k) := by
  rw [halving_loop, land_one_natCast, dif_neg]
  rintro ⟨h0, h1⟩
  have h0 : n % 2 = 0 := by exact_mod_cast h0
  have h1 : 1 < n := by exact_mod_cast h1
  omega

theorem halving_loop_two_pow (m k : ℕ) : halving_loop ((2 ^ m : ℕ) : ℤ) k = (1, k + m) := by
  induction m generalizing k with
  | zero => simpa using halving_loop_stop 1 k (Or.inl rfl)
  | succ m ih =>
    have hpos : 0 < 2 ^ m := Nat.pos_pow_of_pos m (by norm_num)
    have hm : 2 ^ (m + 1) = 2 * 2 ^ m := by ring
    rw [halving_loop_even _ _ (by omega) (by omega)]
    have hd : 2 ^ (m + 1) / 2 = 2 ^ m := by omega
    rw [hd, ih]
    congr 1
    omega

theorem two_pow_of_halving_loop (n : ℕ) :
    ∀ k, 1 ≤ n → (halving_loop (n : ℤ) k).1 = 1 → ∃ m, n = 2 ^ m := by
  induction n using Nat.strong_induction_on with
  | _ n ih =>
    intro k hn h
    by_cases hg : n % 2 = 0 ∧ 1 < n
    · rw [halving_loop_even n k hg.1 hg.2] at h
      obtain ⟨m, hm⟩ := ih (n / 2) (by omega) (k + 1) (by omega) h
      exact ⟨m + 1, by rw [pow_succ]; omega⟩
    · rw [halving_loop_stop n k (by omega)] at h
      have h2 : (n : ℤ) = 1 := h
      have h1 : n = 1 := by exact_mod_cast h2
      exact ⟨0, by simpa using h1⟩

theorem halving_loop_two_pow_int (k : ℕ) : halving_loop ((2 : ℤ) ^ k) 0 = (1, k) := by
  have h := halving_loop_two_pow k 0
  rw [Nat.zero_add] at h
  have hc : (((2 ^ k : ℕ)) : ℤ) = (2 : ℤ) ^ k := by push_cast; rfl
  rw [hc] at h
  exact h

theorem exponent_bounds (k : ℕ) (hlo : (16 : ℤ) ≤ 2 ^ k) (hhi : (2 : ℤ) ^ k ≤ 4096) :
    4 ≤ k ∧ k ≤ 12 := by
  have hlo2 : 2 ^ 4 ≤ 2 ^ k := by exact_mod_cast hlo
  have hhi2 : 2 ^ k ≤ 2 ^ 12 := by exact_mod_cast hhi
  exact ⟨(Nat.pow_le_pow_iff_right (by norm_num)).mp hlo2,
    (Nat.pow_le_pow_iff_right (by norm_num)).mp hhi2⟩

theorem two_pow_in_range (k : ℕ) (h4 : 4 ≤ k) (h12 : k ≤ 12) :
    (16 : ℤ) ≤ 2 ^ k ∧ (2 : ℤ) ^ k ≤ 4096 := by
  have hlo : 2 ^ 4 ≤ 2 ^ k := Nat.pow_le_pow_right (by norm_num) h4
  have hhi : 2 ^ k ≤ 2 ^ 12 := Nat.pow_le_pow_right (by norm_num) h12
  exact ⟨by exact_mod_cast hlo, by exact_mod_cast hhi⟩

theorem set_fft_size_two_pow (k : ℕ) (h4 : 4 ≤ k) (h12 : k ≤ 12) (written : List sr_write_t) :
    set_fft_size (2 ^ k) written =
      (Except.ok (),
        written ++ [⟨sr_reg_t.AXIS_CONFIG_BUS, (0x6AA <<< 9) + k⟩, ⟨sr_reg_t.FFT_SIZE_LOG2, k⟩]) := by
  obtain ⟨hlo, hhi⟩ := two_pow_in_range k h4 h12
  have hr : ¬ ((2 : ℤ) ^ k < 16 ∨ (2 : ℤ) ^ k > 4096) := by
    rintro (h | h) <;> omega
  have hm : (873472 + k) % 4294967296 = 873472 + k := Nat.mod_eq_of_lt (by omega)
  simp [set_fft_size, hr, halving_loop_two_pow_int, hm]

/-! ## C15 -/

/-- C15: for every integer `fft_size` and every log of earlier writes, `set_fft_size` raises a
value error if and only if `fft_size` is not a power of two within [16, 4096], that is not
`2^k` with `4 <= k <= 12`; when it raises, no register write has been performed. -/
theorem C15_value_error_iff_not_power_of_two (fft_size : ℤ) (written : List sr_write_t) :
    ((∃ e, (set_fft_size fft_size written).1 = Except.error e) ↔
      ¬ ∃ k : ℕ, 4 ≤ k ∧ k ≤ 12 ∧ fft_size = 2 ^ k) ∧
    ((∃ e, (set_fft_size fft_size written).1 = Except.error e) →
      (set_fft_size fft_size written).2 = written) := by
  by_cases hr : fft_size < 16 ∨ fft_size > 4096
  · refine ⟨⟨fun _ => ?_, fun _ => ?_⟩, fun _ => ?_⟩
    · rintro ⟨k, h4, h12, rfl⟩
      obtain ⟨hlo, hhi⟩ := two_pow_in_range k h4 h12
      rcases hr with h | h <;> omega
    · simp [set_fft_size, hr]
    · simp [set_fft_size, hr]
  · by_cases hp : ∃ k : ℕ, 4 ≤ k ∧ k ≤ 12 ∧ fft_size = 2 ^ k
    · obtain ⟨k, h4, h12, rfl⟩ := hp
      rw [set_fft_size_two_pow k h4 h12]
      refine ⟨⟨?_, fun h => absurd ⟨k, h4, h12, rfl⟩ h⟩, ?_⟩
      · rintro ⟨e, he⟩
        cases he
      · rintro ⟨e, he⟩
        cases he
    · have hne : (halving_loop fft_size 0).1 ≠ 1 := by
        intro h1
        apply hp
        have hn : fft_size = ((fft_size.toNat : ℕ) : ℤ) := by omega
        rw [hn] at h1
        obtain ⟨m, hm⟩ := two_pow_of_halving_loop fft_size.toNat 0 (by omega) h1
        have hf : fft_size = 2 ^ m := by
          rw [hn, hm]; push_cast; rfl
        have hb := exponent_bounds m (by rw [← hf]; omega) (by rw [← hf]; omega)
        exact ⟨m, hb.1, hb.2, hf⟩
      refine ⟨⟨fun _ => hp, fun _ => by simp [set_fft_size, hr, hne]⟩, fun _ => ?_⟩
      simp [set_fft_size, hr, hne]

/-! ## C17 -/

theorem config_word_fields (k : ℕ) (h4 : 4 ≤ k) (h12 : k ≤ 12) :
    k < 2 ^ 8 ∧ ((0x6AA <<< 9) + k) >>> 9 = 0x6AA ∧ ((0x6AA <<< 9) + k) &&& 0xFF = k := by
  interval_cases k <;> decide

/-- C17: for every `fft_size` that is a power of two in [16, 4096], the halving loop of
`set_fft_size` ends with `fft_size = 1` and a `log2_fft_size` with
`2^log2_fft_size = fft_size`, so `4 <= log2_fft_size <= 12`; the operation returns and writes
`(0x6AA << 9) + log2_fft_size` to the AXIS config bus followed by `log2_fft_size` to
`FFT_SIZE_LOG2`; `log2_fft_size` is below `2^8`, so the bits from 9 up of the config word are
0x6AA and its low 8 bits are `log2_fft_size`. -/
theorem C17_log2_and_register_writes (fft_size : ℤ) (written : List sr_write_t)
    (hpow : ∃ k : ℕ, fft_size = 2 ^ k) (hlo : 16 ≤ fft_size) (hhi : fft_size ≤ 4096) :
    (halving_loop fft_size 0).1 = 1 ∧
    (2 : ℤ) ^ (halving_loop fft_size 0).2 = fft_size ∧
    4 ≤ (halving_loop fft_size 0).2 ∧ (halving_loop fft_size 0).2 ≤ 12 ∧
    set_fft_size fft_size written =
      (Except.ok (),
        written ++
          [⟨sr_reg_t.AXIS_CONFIG_BUS, (0x6AA <<< 9) + (halving_loop fft_size 0).2⟩,
            ⟨sr_reg_t.FFT_SIZE_LOG2, (halving_loop fft_size 0).2⟩]) ∧
    (halving_loop fft_size 0).2 < 2 ^ 8 ∧
    ((0x6AA <<< 9) + (halving_loop fft_size 0).2) >>> 9 = 0x6AA ∧
    ((0x6AA <<< 9) + (halving_loop fft_size 0).2) &&& 0xFF = (halving_loop fft_size 0).2 := by
  obtain ⟨k, rfl⟩ := hpow
  obtain ⟨h4, h12⟩ := exponent_bounds k hlo hhi
  rw [halving_loop_two_pow_int]
  obtain ⟨hb, hs, hl⟩ := config_word_fields k h4 h12
  exact ⟨rfl, rfl, h4, h12, set_fft_size_two_pow k h4 h12 written, hb, hs, hl⟩

/-- C17 at `fft_size = 256`: the log holds the config word `(0x6AA << 9) + 8` and then 8. -/
theorem C17_log2_and_register_writes_witness :
    ((∃ k : ℕ, (256 : ℤ) = 2 ^ k) ∧ (16 : ℤ) ≤ 256 ∧ (256 : ℤ) ≤ 4096) ∧
    (halving_loop 256 0).2 = 8 ∧
    set_fft_size 256 [] =
      (Except.ok (),
        [] ++
          [⟨sr_reg_t.AXIS_CONFIG_BUS, (0x6AA <<< 9) + (halving_loop 256 0).2⟩,
            ⟨sr_reg_t.FFT_SIZE_LOG2, (halving_loop 256 0).2⟩]) :=
  ⟨⟨⟨8, by norm_num⟩, by norm_num, by norm_num⟩,
    congrArg Prod.snd (halving_loop_two_pow_int 8),
    (C17_log2_and_register_writes 256 [] ⟨8, by norm_num⟩ (by norm_num) (by norm_num)).2.2.2.2.1⟩

end fft_block_ctrl_impl

namespace magnesium

/-! ## C11 -/

/-- C11: for every state and every direction value, `get_gain(chan, dir)` returns `rx_gain` when
`dir == RX` and `tx_gain` for every other direction (TX, BOTH or any other value), so that where
the two cached gains differ the RX one is returned if and only if `dir == RX`;
`get_attenuation(chan, dir)` returns `rx_dsa_att` when `dir == RX` and `tx_dsa_att` otherwise, in
the same way; both accessors return without an error and leave the state as it was. -/
theorem C11_accessors_default_to_tx (chan : Nat) (dir : direction_t) (s : radio_state) :
    (get_gain chan dir s = (Except.ok (_get_all_gain chan dir s), s) ∧
      (dir = RX_DIRECTION → _get_all_gain chan dir s = s._all_rx_gain) ∧
      (dir ≠ RX_DIRECTION → _get_all_gain chan dir s = s._all_tx_gain) ∧
      (s._all_rx_gain ≠ s._all_tx_gain →
        (_get_all_gain chan dir s = s._all_rx_gain ↔ dir = RX_DIRECTION))) ∧
    (get_attenuation chan dir s = (Except.ok (_dsa_get_att chan dir s), s) ∧
      (dir = RX_DIRECTION → _dsa_get_att chan dir s = s._dsa_rx_att) ∧
      (dir ≠ RX_DIRECTION → _dsa_get_att chan dir s = s._dsa_tx_att) ∧
      (s._dsa_rx_att ≠ s._dsa_tx_att →
        (_dsa_get_att chan dir s = s._dsa_rx_att ↔ dir = RX_DIRECTION))) := by
  refine ⟨⟨?_, ?_, ?_, ?_⟩, ⟨?_, ?_, ?_, ?_⟩⟩
  · simp only [get_gain, _get_all_gain, bind_eq_seq, pure_eq_ret, seq_members_apply]
    split_ifs <;> rfl
  · intro h; simp [_get_all_gain, h]
  · intro h; simp [_get_all_gain, h]
  · intro hne
    by_cases h : dir = RX_DIRECTION
    · simp [_get_all_gain, h]
    · simp only [_get_all_gain, if_neg h, iff_false, h]
      exact fun he => hne he.symm
  · simp only [get_attenuation, _dsa_get_att, bind_eq_seq, pure_eq_ret, seq_members_apply]
    split_ifs <;> rfl
  · intro h; simp [_dsa_get_att, h]
  · intro h; simp [_dsa_get_att, h]
  · intro hne
    by_cases h : dir = RX_DIRECTION
    · simp [_dsa_get_att, h]
    · simp only [_dsa_get_att, if_neg h, iff_false, h]
      exact fun he => hne he.symm

/-- C11 for the combined direction and for a value that is no enumerator, on a state whose TX
caches differ from the RX ones. -/
theorem C11_accessors_default_to_tx_witness :
    (DX_DIRECTION ≠ RX_DIRECTION ∧ (7 : direction_t) ≠ RX_DIRECTION) ∧
    _get_all_gain 0 DX_DIRECTION { state0 with _all_tx_gain := 3 } = 3 ∧
    _dsa_get_att 0 7 { state0 with _dsa_tx_att := 5 } = 5 :=
  ⟨⟨by decide, by decide⟩,
    (C11_accessors_default_to_tx 0 DX_DIRECTION { state0 with _all_tx_gain := 3 }).1.2.2.1
      (by decide),
    (C11_accessors_default_to_tx 0 7 { state0 with _dsa_tx_att := 5 }).2.2.2.1 (by decide)⟩

/-! ## C13 -/

/-- C13: for every attenuation, channel and state, when no collaborator fails,
`set_attenuation(att_db, chan, BOTH)` issues exactly two writes to the channel's register sink,
the first with mask 0x003F and the second with mask 0x0FC0, both carrying the step code of the
same attenuation, and sets both `rx_dsa_att` and `tx_dsa_att` to `att_db`; with `dir = RX` or
`dir = TX` it issues exactly one write, with that direction's mask. -/
theorem C13_writes_per_direction (env : hw_env) (hnf : ∀ h c, env.fails h c = false) (att : ℚ)
    (chan : Nat) (s : radio_state) :
    (new_calls s (_dsa_set_att env att chan DX_DIRECTION s).2 =
        [call_t.set_gpio_out chan (dsa_val env att) 0x003F,
          call_t.set_gpio_out chan (dsa_val env att) 0x0FC0] ∧
      (_dsa_set_att env att chan DX_DIRECTION s).2._dsa_rx_att = att ∧
      (_dsa_set_att env att chan DX_DIRECTION s).2._dsa_tx_att = att) ∧
    new_calls s (_dsa_set_att env att chan RX_DIRECTION s).2 =
      [call_t.set_gpio_out chan (dsa_val env att) 0x003F] ∧
    new_calls s (_dsa_set_att env att chan TX_DIRECTION s).2 =
      [call_t.set_gpio_out chan (dsa_val env att) 0x0FC0] := by
  rw [dsa_set_att_dx env hnf, dsa_set_att_rx env hnf, dsa_set_att_tx env hnf]
  simp [new_calls]

/-- C13 at 10.3 dB on channel 0: both writes of the combined direction carry the step code
20. -/
theorem C13_writes_per_direction_witness :
    (∀ h c, env0.fails h c = false) ∧
    dsa_val env0 (103 / 10) = 20 ∧
    new_calls state0 (_dsa_set_att env0 (103 / 10) 0 DX_DIRECTION state0).2 =
      [call_t.set_gpio_out 0 (dsa_val env0 (103 / 10)) 0x003F,
        call_t.set_gpio_out 0 (dsa_val env0 (103 / 10)) 0x0FC0] :=
  ⟨env0_never_fails, dsa_val_ten_point_three env0,
    (C13_writes_per_direction env0 env0_never_fails (103 / 10) 0 state0).1.1⟩

/-! ## C20 -/

/-- C20: for every attenuation, channel and state and every `dir` in {RX, TX, BOTH}, when no
collaborator fails, `set_attenuation(att_db, chan, dir)` returns `att_db` unchanged and a
following `get_attenuation(chan, dir)` returns `att_db` unchanged: the returned and cached value
is the requested one, not the applied `step_code / 2`. -/
theorem C20_attenuation_round_trip (env : hw_env) (hnf : ∀ h c, env.fails h c = false)
    (att : ℚ) (chan : Nat) (dir : direction_t) (s : radio_state)
    (hdir : dir = RX_DIRECTION ∨ dir = TX_DIRECTION ∨ dir = DX_DIRECTION) :
    (_dsa_set_att env att chan dir s).1 = Except.ok att ∧
    _dsa_get_att chan dir (_dsa_set_att env att chan dir s).2 = att ∧
    get_attenuation chan dir (_dsa_set_att env att chan dir s).2 =
      (Except.ok att, (_dsa_set_att env att chan dir s).2) := by
  have hg : ∀ t : radio_state, get_attenuation chan dir t = (Except.ok (_dsa_get_att chan dir t), t) := by
    intro t
    simp only [get_attenuation, _dsa_get_att, bind_eq_seq, pure_eq_ret, seq_members_apply]
    split_ifs <;> rfl
  rw [hg]
  rcases hdir with rfl | rfl | rfl
  · rw [dsa_set_att_rx env hnf]
    exact ⟨rfl, rfl, rfl⟩
  · rw [dsa_set_att_tx env hnf]
    exact ⟨rfl, rfl, rfl⟩
  · rw [dsa_set_att_dx env hnf]
    exact ⟨rfl, rfl, rfl⟩

/-- C20 at 10.3 dB on RX: 10.3 is returned and read back, although the step code 20 applies
10.0 dB. -/
theorem C20_attenuation_round_trip_witness :
    ((∀ h c, env0.fails h c = false) ∧
      (RX_DIRECTION = RX_DIRECTION ∨ RX_DIRECTION = TX_DIRECTION ∨ RX_DIRECTION = DX_DIRECTION)) ∧
    dsa_val env0 (103 / 10) = 20 ∧
    (_dsa_set_att env0 (103 / 10) 0 RX_DIRECTION state0).1 = Except.ok (103 / 10) ∧
    _dsa_get_att 0 RX_DIRECTION (_dsa_set_att env0 (103 / 10) 0 RX_DIRECTION state0).2 =
      103 / 10 :=
  ⟨⟨env0_never_fails, Or.inl rfl⟩, dsa_val_ten_point_three env0,
    (C20_attenuation_round_trip env0 env0_never_fails (103 / 10) 0 RX_DIRECTION state0
      (Or.inl rfl)).1,
    (C20_attenuation_round_trip env0 env0_never_fails (103 / 10) 0 RX_DIRECTION state0
      (Or.inl rfl)).2.1⟩

/-! ## The call of the amplifier IC driver -/

theorem ic_call_once (env : hw_env) (gain freq : ℚ) (chan : Nat) (dir : direction_t)
    (s : radio_state) :
    (new_calls s (_set_all_gain env gain freq chan dir s).2).filter call_t.is_ad9371_set_gain =
        [call_t.ad9371_set_gain (ad9371_gain env gain freq dir) chan dir] ∨
    ((_set_all_gain env gain freq chan dir s).1 =
        Except.error ⟨call_t.ad9371_set_gain (ad9371_gain env gain freq dir) chan dir⟩ ∧
      (new_calls s (_set_all_gain env gain freq chan dir s).2).filter
        call_t.is_ad9371_set_gain = []) := by
  rcases direction_cases dir with rfl | rfl | rfl | ⟨h0, h1, h2⟩
  · simp [_set_all_gain, _dsa_set_att, _set_dsa_val, ad9371_set_gain, set_gpio_out,
      _update_rx_freq_switches, _update_tx_freq_switches, bind_eq_seq, pure_eq_ret, seq_assoc,
      ret_seq, seq_invoke_apply, seq_assign_apply, seq_members_apply,
      seq_get_gain_tuple_apply, ret_apply, get_rx_frequency, get_tx_frequency, ad9371_gain,
      new_calls]
    split_ifs <;> simp [List.filter_cons, call_t.is_ad9371_set_gain]
  · simp [_set_all_gain, _dsa_set_att, _set_dsa_val, ad9371_set_gain, set_gpio_out,
      _update_rx_freq_switches, _update_tx_freq_switches, bind_eq_seq, pure_eq_ret, seq_assoc,
      ret_seq, seq_invoke_apply, seq_assign_apply, seq_members_apply,
      seq_get_gain_tuple_apply, ret_apply, get_rx_frequency, get_tx_frequency, ad9371_gain,
      new_calls]
    split_ifs <;> simp [List.filter_cons, call_t.is_ad9371_set_gain]
  · simp [_set_all_gain, _dsa_set_att, _set_dsa_val, ad9371_set_gain, set_gpio_out,
      _update_rx_freq_switches, _update_tx_freq_switches, bind_eq_seq, pure_eq_ret, seq_assoc,
      ret_seq, seq_invoke_apply, seq_assign_apply, seq_members_apply,
      seq_get_gain_tuple_apply, ret_apply, get_rx_frequency, get_tx_frequency, ad9371_gain,
      new_calls]
    split_ifs <;> simp [List.filter_cons, call_t.is_ad9371_set_gain]
  · simp [_set_all_gain, _dsa_set_att, _set_dsa_val, ad9371_set_gain, set_gpio_out,
      _update_rx_freq_switches, _update_tx_freq_switches, bind_eq_seq, pure_eq_ret, seq_assoc,
      ret_seq, seq_invoke_apply, seq_assign_apply, seq_members_apply,
      seq_get_gain_tuple_apply, ret_apply, get_rx_frequency, get_tx_frequency, ad9371_gain,
      new_calls, h0, h1, h2]
    split_ifs <;> simp [List.filter_cons, call_t.is_ad9371_set_gain]

/-! ## C12 -/

/-- C12: for every `gain_db`, frequency, channel and state, whether or not a collaborator fails,
`set_gain` with `dir = RX` calls `AmplifierICDriver.set_gain` exactly once, with the gain
`AD9371_MAX_RX_GAIN - tuple.ic_attenuation_db`, the same `chan` and `dir` (the call is the only
one of the driver in the log, or it is the call that failed), where `tuple` is the result of the
lookup for `(gain_db, freq, dir)`; with `dir = TX` the gain is
`AD9371_MAX_TX_GAIN - tuple.ic_attenuation_db`. -/
theorem C12_ic_gain_from_stage_maximum (env : hw_env) (gain freq : ℚ) (chan : Nat)
    (s : radio_state) :
    ((new_calls s (_set_all_gain env gain freq chan RX_DIRECTION s).2).filter
          call_t.is_ad9371_set_gain =
        [call_t.ad9371_set_gain
          (env.AD9371_MAX_RX_GAIN - (env.get_gain_tuple gain freq RX_DIRECTION).ad9371_att)
          chan RX_DIRECTION] ∨
      ((_set_all_gain env gain freq chan RX_DIRECTION s).1 =
          Except.error ⟨call_t.ad9371_set_gain
            (env.AD9371_MAX_RX_GAIN - (env.get_gain_tuple gain freq RX_DIRECTION).ad9371_att)
            chan RX_DIRECTION⟩ ∧
        (new_calls s (_set_all_gain env gain freq chan RX_DIRECTION s).2).filter
          call_t.is_ad9371_set_gain = [])) ∧
    ((new_calls s (_set_all_gain env gain freq chan TX_DIRECTION s).2).filter
          call_t.is_ad9371_set_gain =
        [call_t.ad9371_set_gain
          (env.AD9371_MAX_TX_GAIN - (env.get_gain_tuple gain freq TX_DIRECTION).ad9371_att)
          chan TX_DIRECTION] ∨
      ((_set_all_gain env gain freq chan TX_DIRECTION s).1 =
          Except.error ⟨call_t.ad9371_set_gain
            (env.AD9371_MAX_TX_GAIN - (env.get_gain_tuple gain freq TX_DIRECTION).ad9371_att)
            chan TX_DIRECTION⟩ ∧
        (new_calls s (_set_all_gain env gain freq chan TX_DIRECTION s).2).filter
          call_t.is_ad9371_set_gain = [])) := by
  have hrx := ic_call_once env gain freq chan RX_DIRECTION s
  have htx := ic_call_once env gain freq chan TX_DIRECTION s
  simp only [ad9371_gain, if_true] at hrx
  have hne : ¬ (TX_DIRECTION = RX_DIRECTION) := by decide
  simp only [ad9371_gain, if_neg hne] at htx
  exact ⟨hrx, htx⟩

/-! ## C18 -/

/-- C18: for every `gain_db`, frequency, channel and state, whether or not a collaborator fails,
`set_gain` with a direction other than RX, in particular `dir = BOTH`, calls
`AmplifierICDriver.set_gain` exactly once, with that `dir` and the gain
`AD9371_MAX_TX_GAIN - tuple.ic_attenuation_db`: the RX maximum is used only when `dir == RX`. -/
theorem C18_both_uses_tx_maximum (env : hw_env) (gain freq : ℚ) (chan : Nat)
    (dir : direction_t) (s : radio_state) (hdir : dir ≠ RX_DIRECTION) :
    (new_calls s (_set_all_gain env gain freq chan dir s).2).filter
          call_t.is_ad9371_set_gain =
        [call_t.ad9371_set_gain
          (env.AD9371_MAX_TX_GAIN - (env.get_gain_tuple gain freq dir).ad9371_att) chan dir] ∨
      ((_set_all_gain env gain freq chan dir s).1 =
          Except.error ⟨call_t.ad9371_set_gain
            (env.AD9371_MAX_TX_GAIN - (env.get_gain_tuple gain freq dir).ad9371_att)
            chan dir⟩ ∧
        (new_calls s (_set_all_gain env gain freq chan dir s).2).filter
          call_t.is_ad9371_set_gain = []) := by
  have h := ic_call_once env gain freq chan dir s
  simp only [ad9371_gain, if_neg hdir] at h
  exact h

/-- C18 for `dir = BOTH` at 20 dB, where the table gives the IC attenuation 15 dB: the driver
gets `41.95 - 15 = 26.95` dB, not `30 - 15`. -/
theorem C18_both_uses_tx_maximum_witness :
    DX_DIRECTION ≠ RX_DIRECTION ∧
    (new_calls state0 (_set_all_gain env0 20 2000000000 0 DX_DIRECTION state0).2).filter
        call_t.is_ad9371_set_gain =
      [call_t.ad9371_set_gain (2695 / 100) 0 DX_DIRECTION] := by
  refine ⟨by decide, ?_⟩
  rcases C18_both_uses_tx_maximum env0 20 2000000000 0 DX_DIRECTION state0 (by decide) with
    h | h
  · rw [h]
    simp only [env0, table50_at_20]
    norm_num
  · rw [set_all_gain_dx env0 env0_never_fails] at h
    cases h.1

/-! ## C14 -/

/-- C14: for every register value, every attenuation and every environment (whether or not the
sink fails), `set_attenuation(att_db, chan, RX)` leaves bits 6-11 of the channel's attenuator
register unchanged and `set_attenuation(att_db, chan, TX)` leaves bits 0-5 unchanged, the
register sink being the masked write; the masks 0x003F and 0x0FC0 are disjoint and together
cover exactly the 12-bit field 0xFFF. -/
theorem C14_other_direction_bits_unchanged (env : hw_env) (att : ℚ) (chan : Nat)
    (s : radio_state) :
    (_dsa_set_att env att chan RX_DIRECTION s).2._gpio chan &&& 0x0FC0 =
      s._gpio chan &&& 0x0FC0 ∧
    (_dsa_set_att env att chan TX_DIRECTION s).2._gpio chan &&& 0x003F =
      s._gpio chan &&& 0x003F ∧
    0x003F &&& 0x0FC0 = 0 ∧ 0x003F ||| 0x0FC0 = 0xFFF := by
  refine ⟨?_, ?_, by decide, by decide⟩
  · simp [_dsa_set_att, _set_dsa_val, set_gpio_out, bind_eq_seq, pure_eq_ret, seq_assoc,
      ret_seq, seq_invoke_apply, seq_assign_apply, ret_apply]
    split_ifs
    · rfl
    · simpa using masked_write_rx_frame (s._gpio chan) (dsa_val env att)
  · simp [_dsa_set_att, _set_dsa_val, set_gpio_out, bind_eq_seq, pure_eq_ret, seq_assoc,
      ret_seq, seq_invoke_apply, seq_assign_apply, ret_apply]
    split_ifs
    · rfl
    · simpa using masked_write_tx_frame (s._gpio chan) (dsa_val env att)

/-! ## C16 -/

/-- C16: for every state, gain, frequency, channel and environment, a `set_gain` with
`dir = RX`, successful or not, leaves `tx_gain`, `tx_bypass` and `tx_dsa_att` unchanged, leaves
the bits under mask 0x0FC0 of every channel's register unchanged, issues no write with mask
0x0FC0 and does not invoke `update_tx`; symmetrically a `set_gain` with `dir = TX` leaves
`rx_gain`, `rx_bypass` and `rx_dsa_att` unchanged, leaves the bits under mask 0x003F unchanged,
issues no write with mask 0x003F and does not invoke `update_rx`. -/
theorem C16_set_gain_other_direction_untouched (env : hw_env) (gain freq : ℚ) (chan : Nat)
    (s : radio_state) :
    ((_set_all_gain env gain freq chan RX_DIRECTION s).2._all_tx_gain = s._all_tx_gain ∧
      (_set_all_gain env gain freq chan RX_DIRECTION s).2._tx_bypass_amp = s._tx_bypass_amp ∧
      (_set_all_gain env gain freq chan RX_DIRECTION s).2._dsa_tx_att = s._dsa_tx_att ∧
      (∀ ch, (_set_all_gain env gain freq chan RX_DIRECTION s).2._gpio ch &&& 0x0FC0 =
        s._gpio ch &&& 0x0FC0) ∧
      (∀ c ∈ new_calls s (_set_all_gain env gain freq chan RX_DIRECTION s).2,
        c.is_update_tx_freq_switches = false ∧ ∀ ch v, c ≠ call_t.set_gpio_out ch v 0x0FC0)) ∧
    ((_set_all_gain env gain freq chan TX_DIRECTION s).2._all_rx_gain = s._all_rx_gain ∧
      (_set_all_gain env gain freq chan TX_DIRECTION s).2._rx_bypass_lnas = s._rx_bypass_lnas ∧
      (_set_all_gain env gain freq chan TX_DIRECTION s).2._dsa_rx_att = s._dsa_rx_att ∧
      (∀ ch, (_set_all_gain env gain freq chan TX_DIRECTION s).2._gpio ch &&& 0x003F =
        s._gpio ch &&& 0x003F) ∧
      (∀ c ∈ new_calls s (_set_all_gain env gain freq chan TX_DIRECTION s).2,
        c.is_update_rx_freq_switches = false ∧ ∀ ch v, c ≠ call_t.set_gpio_out ch v 0x003F)) := by
  have hrx : ∀ ch v, Function.update s._gpio chan (masked_write (s._gpio chan) v 0x3F) ch &&&
      0xFC0 = s._gpio ch &&& 0xFC0 := by
    intro ch v
    by_cases h : ch = chan
    · subst h
      simpa using masked_write_rx_frame (s._gpio ch) v
    · simp [Function.update_noteq h]
  have htx : ∀ ch v, Function.update s._gpio chan (masked_write (s._gpio chan) v 0xFC0) ch &&&
      0x3F = s._gpio ch &&& 0x3F := by
    intro ch v
    by_cases h : ch = chan
    · subst h
      simpa using masked_write_tx_frame (s._gpio ch) v
    · simp [Function.update_noteq h]
  constructor
  · simp [_set_all_gain, _dsa_set_att, _set_dsa_val, ad9371_set_gain, set_gpio_out,
      _update_rx_freq_switches, _update_tx_freq_switches, bind_eq_seq, pure_eq_ret, seq_assoc,
      ret_seq, seq_invoke_apply, seq_assign_apply, seq_members_apply,
      seq_get_gain_tuple_apply, ret_apply, get_rx_frequency, get_tx_frequency, new_calls]
    split_ifs <;> simp [call_t.is_update_tx_freq_switches, hrx]
  · simp [_set_all_gain, _dsa_set_att, _set_dsa_val, ad9371_set_gain, set_gpio_out,
      _update_rx_freq_switches, _update_tx_freq_switches, bind_eq_seq, pure_eq_ret, seq_assoc,
      ret_seq, seq_invoke_apply, seq_assign_apply, seq_members_apply,
      seq_get_gain_tuple_apply, ret_apply, get_rx_frequency, get_tx_frequency, new_calls]
    split_ifs <;> simp [call_t.is_update_rx_freq_switches, htx]

/-! ## C19 -/

theorem and_63_eq_mod (v : Nat) : v &&& 0x3F = v % 64 := by
  have h := Nat.and_pow_two_sub_one_eq_mod v 6
  simpa using h

theorem rx_field_after_write (env : hw_env) (hnf : ∀ h c, env.fails h c = false) (att : ℚ)
    (chan : Nat) (s : radio_state) :
    (_dsa_set_att env att chan RX_DIRECTION s).2._gpio chan &&& 0x3F = dsa_val env att % 64 := by
  rw [dsa_set_att_rx env hnf]
  simp only [Function.update_same]
  rw [masked_write_rx_field, and_63_eq_mod]

theorem env_wrapping_wraps : wraps env_wrapping := by
  intro x
  show (truncate x % 2 ^ 32).toNat % 2 ^ 32 = (truncate x % 2 ^ 32).toNat
  generalize truncate x = t
  omega

theorem dsa_val_mod_64_of_wraps (env : hw_env) (hw : wraps env) {att : ℚ} (h0 : 0 ≤ att) :
    dsa_val env att % 64 = ⌊2 * att⌋.toNat % 64 := by
  have hx : (0 : ℚ) ≤ 2 * att := by linarith
  have hf0 : 0 ≤ ⌊2 * att⌋ := Int.floor_nonneg.mpr hx
  unfold dsa_val double_to_uint32
  rw [truncate_nonneg hx]
  split_ifs with h
  · rfl
  · have h1 := hw (2 * att)
    rw [truncate_nonneg hx] at h1
    rw [h1]
    omega

/-- C19: for every attenuation `att_db >= 0`, every register value and channel, when no
collaborator fails, after `set_attenuation(att_db, chan, RX)` bits 0-5 of the register equal
`floor(2 * att_db) mod 64`, for `2 * att_db < 2^32` in every environment and beyond that where
the out-of-range conversion to `uint32_t` wraps; in every environment they equal the full step
code `floor(2 * att_db)` if and only if `att_db < 32`, so an attenuation of 32 dB or more is
neither saturated nor rejected and wraps in the 6-bit field. -/
theorem C19_rx_field_is_step_code_mod_64 (env : hw_env) (hnf : ∀ h c, env.fails h c = false)
    (att : ℚ) (chan : Nat) (s : radio_state) (h0 : 0 ≤ att) :
    (2 * att < 2 ^ 32 ∨ wraps env →
      (_dsa_set_att env att chan RX_DIRECTION s).2._gpio chan &&& 0x3F =
        ⌊2 * att⌋.toNat % 64) ∧
    ((((_dsa_set_att env att chan RX_DIRECTION s).2._gpio chan &&& 0x3F : ℕ) : ℤ) =
        ⌊2 * att⌋ ↔ att < 32) := by
  rw [rx_field_after_write env hnf]
  have hf0 : 0 ≤ ⌊2 * att⌋ := Int.floor_nonneg.mpr (by linarith)
  refine ⟨fun hconv => ?_, ⟨fun h => ?_, fun h => ?_⟩⟩
  · rcases hconv with h1 | hw
    · rw [dsa_val_eq_floor env h0 h1]
    · exact dsa_val_mod_64_of_wraps env hw h0
  · have hlt : dsa_val env att % 64 < 64 := Nat.mod_lt _ (by norm_num)
    have hfl : ⌊2 * att⌋ < 64 := by rw [← h]; exact_mod_cast hlt
    have h2 : 2 * att < ((⌊2 * att⌋ : ℤ) : ℚ) + 1 := Int.lt_floor_add_one _
    have h3 : ((⌊2 * att⌋ : ℤ) : ℚ) + 1 ≤ 64 := by exact_mod_cast hfl
    linarith
  · have h1 : 2 * att < 2 ^ 32 := by norm_num; linarith
    have hfl : ⌊2 * att⌋ < 64 := by
      have : ((⌊2 * att⌋ : ℤ) : ℚ) < ((64 : ℤ) : ℚ) := by
        push_cast
        exact lt_of_le_of_lt (Int.floor_le _) (by linarith)
      exact_mod_cast this
    rw [dsa_val_eq_floor env h0 h1]
    omega

/-- C19 at 2147483650.5 dB with a wrapping conversion: `2 * att_db` is 4294967301, the step code
wraps to 5 and bits 0-5 hold `4294967301 mod 64 = 5`. -/
theorem C19_rx_field_is_step_code_mod_64_witness :
    ((∀ h c, env_wrapping.fails h c = false) ∧ (0 : ℚ) ≤ 4294967301 / 2 ∧
      ((2 : ℚ) * (4294967301 / 2) < 2 ^ 32 ∨ wraps env_wrapping)) ∧
    ⌊(2 : ℚ) * (4294967301 / 2)⌋.toNat % 64 = 5 ∧
    (_dsa_set_att env_wrapping (4294967301 / 2) 0 RX_DIRECTION state0).2._gpio 0 &&& 0x3F =
      ⌊(2 : ℚ) * (4294967301 / 2)⌋.toNat % 64 := by
  have hfloor : ⌊(2 : ℚ) * (4294967301 / 2)⌋ = 4294967301 := by
    rw [Int.floor_eq_iff]; norm_num
  have hnf : ∀ h c, env_wrapping.fails h c = false := fun _ _ => rfl
  refine ⟨⟨hnf, by norm_num, Or.inr env_wrapping_wraps⟩, by rw [hfloor]; rfl, ?_⟩
  exact (C19_rx_field_is_step_code_mod_64 env_wrapping hnf (4294967301 / 2) 0 state0
    (by norm_num)).1 (Or.inr env_wrapping_wraps)

end magnesium
